import Mathlib

/-!
Verification of the seraph/verdict assessment pipeline against its
specification.  The Python sources under `src/` are shallowly embedded:
floats become `ℚ` (with Python's `round` modelled as round-half-to-even on
the exact rational), Python sets and dicts become lists with membership
tests, SQLite tables become lists of row structures, and fallible stages
become `Except Unit` values.  Where the seraph generation of the code calls
helpers that are absent from the sources (the security-extended report
builder), those helpers are modelled from the specification and say so in
their doc comments.
-/

namespace Seraph

/-! ## Rational helpers: Python's `round` -/

/-- Floor of a rational, computed with flooring integer division
(`Int.fdiv`), so that it evaluates by kernel reduction. -/
def rat_floor (q : ℚ) : ℤ := Int.fdiv q.num q.den

/-- Round a rational to the nearest integer, halves to even — the rounding
Python's builtin `round` applies. -/
def round_half_even (q : ℚ) : ℤ :=
  let n := rat_floor q
  let f := q - (n : ℚ)
  if f < 1/2 then n
  else if 1/2 < f then n + 1
  else if 2 ∣ n then n else n + 1

/-- Python's `round(x, 1)` on the exact rational value. -/
def py_round_1 (x : ℚ) : ℚ := (round_half_even (10 * x) : ℚ) / 10

/-- Python's `round(x, 4)` on the exact rational value. -/
def py_round_4 (x : ℚ) : ℚ := (round_half_even (10000 * x) : ℚ) / 10000

theorem rat_floor_intCast (n : ℤ) : rat_floor (n : ℚ) = n := by
  simp [rat_floor, Rat.num_intCast, Rat.den_intCast, Int.fdiv_one]

theorem round_half_even_intCast (n : ℤ) : round_half_even (n : ℚ) = n := by
  unfold round_half_even
  rw [rat_floor_intCast]
  norm_num

theorem py_round_1_intCast (n : ℤ) : py_round_1 (n : ℚ) = n := by
  unfold py_round_1
  have h : (10 : ℚ) * (n : ℚ) = ((10 * n : ℤ) : ℚ) := by push_cast; ring
  rw [h, round_half_even_intCast]
  push_cast
  ring

theorem py_round_1_hundred : py_round_1 (100 : ℚ) = 100 := by
  have := py_round_1_intCast 100
  norm_num at this
  exact this

/-! ## Character and string helpers

The Python sources use `str.lower`, `str.endswith` and compiled regular
expressions; these are embedded as recursive scanners over `List Char`. -/

/-- The characters of a string, lower-cased (ASCII, which is what the
matched patterns contain); embeds `re.IGNORECASE` matching against
lower-case patterns. -/
def lower_chars (s : String) : List Char := s.data.map Char.toLower

/-- Whitespace as Python's regex `\s` classifies ASCII. -/
def is_ws (c : Char) : Bool :=
  c = ' ' || c = '\t' || c = '\n' || c = '\r' || c = '\x0b' || c = '\x0c'

/-- Word characters as Python's regex `\w` classifies ASCII. -/
def word_char (c : Char) : Bool := c.isAlphanum || c = '_'

/-- Does `pat` occur as a contiguous substring of `text`? -/
def contains_sub (pat : List Char) : List Char → Bool
  | [] => pat.isEmpty
  | c :: rest => pat.isPrefixOf (c :: rest) || contains_sub pat rest

/-- Scan every position of the text (carrying the preceding character for
word-boundary tests) and ask `p` whether a match starts there. -/
def scan_from (p : Option Char → List Char → Bool) : Option Char → List Char → Bool
  | prev, [] => p prev []
  | prev, c :: rest => p prev (c :: rest) || scan_from p (some c) rest

/-- Does some position of `l` satisfy `p` (given its preceding character)? -/
def scan (p : Option Char → List Char → Bool) (l : List Char) : Bool :=
  scan_from p none l

/-- Word boundary on the left of a match position. -/
def boundary_left : Option Char → Bool
  | none => true
  | some c => !word_char c

/-- Word boundary on the right of a match. -/
def boundary_right : List Char → Bool
  | [] => true
  | c :: _ => !word_char c

/-- Regex fragment `\s*\(`: optional whitespace then an opening paren. -/
def ws_then_lparen (l : List Char) : Bool :=
  match l.dropWhile is_ws with
  | '(' :: _ => true
  | _ => false

/-- A single or double quote character. -/
def is_quote (c : Char) : Bool := c = '"' || c = '\''

/-- Byte-wise lexicographic comparison of strings (Python's `<` / `sorted`
order on ASCII strings), as a decidable Bool on the character lists. -/
def chars_le : List Char → List Char → Bool
  | [], _ => true
  | _ :: _, [] => false
  | a :: as, b :: bs => a < b || (a = b && chars_le as bs)

/-- String order used by `sorted(...)` in the embedded Python. -/
def str_le (a b : String) : Prop := chars_le a.data b.data = true

instance : DecidableRel str_le := fun a b => by unfold str_le; infer_instance

theorem chars_le_total (a b : List Char) : chars_le a b = true ∨ chars_le b a = true := by
  induction a generalizing b with
  | nil => left; rfl
  | cons x xs ih =>
    cases b with
    | nil => right; rfl
    | cons y ys =>
      rcases lt_trichotomy x y with h | h | h
      · left; simp [chars_le, h]
      · subst h
        rcases ih ys with h2 | h2
        · left; simp [chars_le, h2]
        · right; simp [chars_le, h2]
      · right; simp [chars_le, h]

instance : IsTotal String str_le := ⟨fun a b => chars_le_total a.data b.data⟩

theorem chars_le_trans {a b c : List Char} (hab : chars_le a b = true)
    (hbc : chars_le b c = true) : chars_le a c = true := by
  induction a generalizing b c with
  | nil => rfl
  | cons x xs ih =>
    cases b with
    | nil => simp [chars_le] at hab
    | cons y ys =>
      cases c with
      | nil => simp [chars_le] at hbc
      | cons z zs =>
        simp only [chars_le, Bool.or_eq_true, Bool.and_eq_true, decide_eq_true_eq] at hab hbc ⊢
        rcases hab with h1 | ⟨h1, h1r⟩
        · rcases hbc with h2 | ⟨h2, _⟩
          · exact Or.inl (lt_trans h1 h2)
          · exact Or.inl (h2 ▸ h1)
        · rcases hbc with h2 | ⟨h2, h2r⟩
          · exact Or.inl (h1 ▸ h2)
          · exact Or.inr ⟨h1.trans h2, ih h1r h2r⟩

instance : IsTrans String str_le :=
  ⟨fun _ _ _ hab hbc => chars_le_trans hab hbc⟩

/-- Python's `path.endswith(".py")`, evaluated on the character list so
that it reduces in the kernel. -/
def ends_with_py (f : String) : Bool := List.isSuffixOf ".py".data f.data

/-! ## Data model (src/verdict/models, src/seraph/models) -/

/-- Severity of a finding (`models/enums.py`). -/
inductive Severity where
  | critical | high | medium | low | info
deriving DecidableEq, Repr

/-- Status of a mutant (`models/enums.py`). -/
inductive MutantStatus where
  | killed | survived | timeout | error | skipped
deriving DecidableEq, Repr

/-- Assessment grade (`models/enums.py`). -/
inductive Grade where
  | A | B | C | D | F
deriving DecidableEq, Repr

/-- `Grade.from_score` with optional thresholds (seraph `models/enums.py`);
the verdict variant is the `none` instance of this. -/
def grade_from_score (score : ℚ) (thresholds : Option (ℚ × ℚ × ℚ × ℚ)) : Grade :=
  let t := thresholds.getD (90, 75, 60, 40)
  if t.1 ≤ score then Grade.A
  else if t.2.1 ≤ score then Grade.B
  else if t.2.2.1 ≤ score then Grade.C
  else if t.2.2.2 ≤ score then Grade.D
  else Grade.F

/-- A mutation-testing result row (`models/assessment.py`). -/
structure MutationResult where
  file_path : String
  mutant_id : String
  operator : String
  line_number : Option Nat
  status : MutantStatus
deriving DecidableEq, Repr

/-- A static-analysis finding (`models/assessment.py`); the analyzer tag is
kept as its string value. -/
structure StaticFinding where
  file_path : String
  line_number : Nat
  code : String
  message : String
  severity : Severity
  analyzer : String
deriving DecidableEq, Repr

/-- A security finding (seraph `models/assessment.py`). -/
structure SecurityFinding where
  file_path : String
  line_number : Nat
  code : String
  message : String
  severity : Severity
  cwe_id : String
  source_line : String
deriving DecidableEq, Repr

/-- A pitfall match from the knowledge oracle (`models/assessment.py`). -/
structure PitfallMatch where
  pitfall_id : Nat
  description : String
  severity : String
  how_to_prevent : String
  matched_file : String
  match_type : String
deriving DecidableEq, Repr

/-- Hot-file churn data from the knowledge oracle. -/
structure HotFileInfo where
  file_path : String
  churn_score : ℚ
  change_count : Nat
  bug_fix_count : Nat
  revert_count : Nat
deriving DecidableEq, Repr

/-- A historical co-change partner missing from the diff. -/
structure MissingCoChange where
  source_file : String
  partner_file : String
  change_count : Nat
deriving DecidableEq, Repr

/-- The knowledge oracle's combined signals (`models/assessment.py`). -/
structure SentinelSignals where
  available : Bool := false
  pitfall_matches : List PitfallMatch := []
  hot_files : List HotFileInfo := []
  missing_co_changes : List MissingCoChange := []
deriving DecidableEq, Repr

/-- A flakiness-baseline result (`models/assessment.py`). -/
structure BaselineResult where
  repo_path : String
  test_cmd : String
  run_count : Nat
  flaky_tests : List String
  pass_rate : ℚ
deriving DecidableEq, Repr

/-! ## Baseline probe (src/verdict/core/baseline.py)

`run_baseline` repeats the test command and collects, per run, the set of
failing test identifiers; the subprocess part is abstracted into the input
`all_failures : List (List String)` (one failure set per run, in run
order), which is exactly the data the pure tail of the function consumes. -/

/-- In how many runs did `test_id` fail (`sum(1 for failures in
all_failures if test_id in failures)`). -/
def fail_count (all_failures : List (List String)) (test_id : String) : Nat :=
  all_failures.countP (fun failures => test_id ∈ failures)

/-- The union of all failing test identifiers across the runs (the set
`all_test_ids`). -/
def all_test_ids (all_failures : List (List String)) : List String :=
  (all_failures.flatMap id).dedup

/-- The pure tail of `run_baseline`: classify flaky tests and compute the
pass rate from the per-run failure sets. -/
def run_baseline_core (repo_path test_cmd : String)
    (all_failures : List (List String)) : BaselineResult :=
  let run_count := all_failures.length
  let ids := List.insertionSort str_le (all_test_ids all_failures)
  let flaky := ids.filter fun t =>
    decide (0 < fail_count all_failures t) && decide (fail_count all_failures t < run_count)
  let total_results := (all_failures.map List.length).sum
  let pass_rate : ℚ :=
    if all_test_ids all_failures ≠ [] then
      let avg_failures : ℚ := (total_results : ℚ) / (run_count : ℚ)
      max 0 (1 - avg_failures / (max (all_test_ids all_failures).length 1 : ℚ))
    else 1
  ⟨repo_path, test_cmd, run_count, flaky, py_round_4 pass_rate⟩

/-! ## Store (src/verdict/core/store.py)

The SQLite tables are lists of row structures; only the columns the prune
path touches are carried.  `created_at` timestamps are integers under the
order SQLite's `datetime` strings compare in. -/

/-- A row of the `assessments` table (the columns prune and lookup use). -/
structure AssessmentRow where
  id : String
  repo_path : String
  grade : String
  created_at : Int
deriving DecidableEq, Repr

/-- A row of the `baselines` table. -/
structure BaselineRow where
  id : String
  repo_path : String
  created_at : Int
deriving DecidableEq, Repr

/-- A row of the `mutation_cache` table. -/
structure MutationRow where
  id : String
  assessment_id : String
  created_at : Int
deriving DecidableEq, Repr

/-- A row of the `feedback` table. -/
structure FeedbackRow where
  id : String
  assessment_id : String
  created_at : Int
deriving DecidableEq, Repr

/-- The store's four data tables. -/
structure StoreState where
  assessments : List AssessmentRow
  baselines : List BaselineRow
  mutation_cache : List MutationRow
  feedback : List FeedbackRow
deriving DecidableEq, Repr

/-- The per-table deletion counts `prune` returns. -/
structure PruneCounts where
  feedback : Nat
  mutation_cache : Nat
  baselines : Nat
  assessments : Nat
deriving DecidableEq, Repr

/-- `VerdictStore.get_assessment`: look a row up by primary key. -/
def get_assessment (s : StoreState) (assessment_id : String) : Option AssessmentRow :=
  s.assessments.find? (fun a => a.id = assessment_id)

/-- `VerdictStore.prune`: compute the cutoff (`now` minus the retention
window), select the old assessment ids, and either return zeroed counts or
delete, in dependency order, the feedback and mutation-cache rows keyed by
those ids, the baselines older than the cutoff, and the selected
assessments, returning the per-table deletion counts. -/
def prune (s : StoreState) (now retention_days : Int) : StoreState × PruneCounts :=
  let cutoff := now - retention_days
  let old_id_list := (s.assessments.filter (fun a => a.created_at < cutoff)).map (·.id)
  if old_id_list = [] then
    (s, ⟨0, 0, 0, 0⟩)
  else
    let fb_deleted := s.feedback.countP (fun r => r.assessment_id ∈ old_id_list)
    let mc_deleted := s.mutation_cache.countP (fun r => r.assessment_id ∈ old_id_list)
    let bl_deleted := s.baselines.countP (fun r => r.created_at < cutoff)
    let as_deleted := s.assessments.countP (fun r => r.id ∈ old_id_list)
    ({ assessments := s.assessments.filter (fun r => r.id ∉ old_id_list),
       baselines := s.baselines.filter (fun r => ¬ r.created_at < cutoff),
       mutation_cache := s.mutation_cache.filter (fun r => r.assessment_id ∉ old_id_list),
       feedback := s.feedback.filter (fun r => r.assessment_id ∉ old_id_list) },
     ⟨fb_deleted, mc_deleted, bl_deleted, as_deleted⟩)

/-! ## Knowledge-oracle bridge (src/verdict/core/bridge.py)

The oracle behind `self._store` is abstracted into functions: `get_co_changes`
maps a changed file to its co-change records, and `contents` maps a file path
to its on-disk text (`none` for a missing or unreadable file).  A compiled
regular expression is abstracted into its matcher `String → Bool`;
`code_pattern = none` models a falsy pattern, `some none` a pattern whose
compilation raises `re.error`, and `some (some m)` a compiled pattern. -/

/-- A co-change record from the oracle. -/
structure CoChangeRec where
  file_a : String
  file_b : String
  change_count : Nat
deriving DecidableEq, Repr

/-- A recorded pitfall from the oracle. -/
structure Pitfall where
  id : Nat
  description : String
  severity : String
  how_to_prevent : String
  file_paths : List String
  code_pattern : Option (Option (String → Bool))

/-- The partner side of a co-change record relative to the queried file
(`cc.file_b if cc.file_a == f else cc.file_a`). -/
def co_change_partner (f : String) (cc : CoChangeRec) : String :=
  if cc.file_a = f then cc.file_b else cc.file_a

/-- The nested loop of `_get_missing_co_changes`, flattened over
`(source file, co-change record)` pairs in iteration order, threading the
`seen_pairs` set: a partner already in the changed set or already seen is
skipped, any other partner is recorded and marked seen. -/
def collect_missing (changed_set : List String) :
    List (String × CoChangeRec) → List String → List MissingCoChange
  | [], _ => []
  | (f, cc) :: rest, seen =>
    let partner := co_change_partner f cc
    if partner ∈ changed_set ∨ partner ∈ seen then
      collect_missing changed_set rest seen
    else
      ⟨f, partner, cc.change_count⟩ :: collect_missing changed_set rest (partner :: seen)

/-- The sort order of `sorted(missing, key=lambda x: x["change_count"],
reverse=True)`: change count descending. -/
def count_ge (a b : MissingCoChange) : Prop := b.change_count ≤ a.change_count

instance : DecidableRel count_ge := fun a b => by unfold count_ge; infer_instance

instance : IsTotal MissingCoChange count_ge :=
  ⟨fun a b => Nat.le_total b.change_count a.change_count⟩

instance : IsTrans MissingCoChange count_ge :=
  ⟨fun _ _ _ hab hbc => le_trans hbc hab⟩

/-- `SentinelBridge._get_missing_co_changes`: collect unseen partners that
are not themselves in the diff, then stable-sort by change count
descending (Python's `sorted` with `reverse=True`; insertion sort before a
first strictly smaller element is the same stable permutation). -/
def get_missing_co_changes (get_co_changes : String → List CoChangeRec)
    (changed_files : List String) : List MissingCoChange :=
  List.insertionSort count_ge
    (collect_missing changed_files
      (changed_files.flatMap (fun f => (get_co_changes f).map (fun cc => (f, cc)))) [])

/-- Build one pitfall-match record (the dict literal in `_match_pitfalls`). -/
def pitfall_match_rec (p : Pitfall) (matched_file match_type : String) : PitfallMatch :=
  ⟨p.id, p.description, p.severity, p.how_to_prevent, matched_file, match_type⟩

/-- The code-pattern inner loop of `_match_pitfalls`: every changed file
whose contents exist and match the compiled pattern yields one match (the
loop has no break). -/
def code_pattern_matches (m : String → Bool) (contents : String → Option String)
    (changed_files : List String) (p : Pitfall) : List PitfallMatch :=
  changed_files.filterMap fun file =>
    match contents file with
    | none => none
    | some text => if m text then some (pitfall_match_rec p file "code_pattern") else none

/-- `SentinelBridge._match_pitfalls`: per pitfall, first try the file-path
association (one match, `continue`); otherwise, with a compilable pattern,
search every changed file's contents; a falsy or invalid pattern skips the
pitfall. -/
def match_pitfalls (contents : String → Option String) (changed_files : List String) :
    List Pitfall → List PitfallMatch
  | [] => []
  | p :: rest =>
    match p.file_paths.filter (fun f => f ∈ changed_files) with
    | f0 :: _ => pitfall_match_rec p f0 "file_path" :: match_pitfalls contents changed_files rest
    | [] =>
      match p.code_pattern with
      | some (some m) =>
          code_pattern_matches m contents changed_files p
            ++ match_pitfalls contents changed_files rest
      | _ => match_pitfalls contents changed_files rest

/-- Follows the amended claim's words: the matches one pitfall contributes —
exactly one `file_path` match on an association hit, otherwise one
`code_pattern` match per changed file whose contents match the compiled
pattern, and nothing for a missing or invalid pattern. -/
def pitfall_matches_one (contents : String → Option String) (changed_files : List String)
    (p : Pitfall) : List PitfallMatch :=
  match p.file_paths.filter (fun f => f ∈ changed_files) with
  | f0 :: _ => [pitfall_match_rec p f0 "file_path"]
  | [] =>
    match p.code_pattern with
    | some (some m) => code_pattern_matches m contents changed_files p
    | _ => []

/-! ## Security post-filter (src/seraph/core/security.py)

The three compiled regular expressions `_CWE259_FP_RE`,
`_RANDOM_BENIGN_CONTEXT` and `_RANDOM_BENIGN_FILES` are hand-compiled into
scanners over the lower-cased character list (they are `re.IGNORECASE`
patterns of ASCII literals, `\s`, `\b` and alternation only). -/

/-- Regex alternate `[!=]=`: an `==` or `!=` comparison. -/
def has_comparison (l : List Char) : Bool :=
  contains_sub "==".data l || contains_sub "!=".data l

/-- Regex fragment `pat\s*\(`: the literal `pat` then optional whitespace
then an opening paren (covers `\.get\s*\(`, `\.pop\s*\(`,
`\.setdefault\s*\(`, `getenv\s*\(`). -/
def has_call_after (pat : String) (l : List Char) : Bool :=
  scan (fun _ suf => pat.data.isPrefixOf suf && ws_then_lparen (suf.drop pat.data.length)) l

/-- Regex alternate `environ\b`. -/
def has_environ (l : List Char) : Bool :=
  scan (fun _ suf => "environ".data.isPrefixOf suf && boundary_right (suf.drop 7)) l

/-- Regex alternate `=\s*["']["']`: an empty-string assignment or default. -/
def has_empty_string_default (l : List Char) : Bool :=
  scan (fun _ suf =>
    match suf with
    | '=' :: r =>
        match r.dropWhile is_ws with
        | a :: b :: _ => is_quote a && is_quote b
        | _ => false
    | _ => false) l

/-- Regex alternate `=\s*None\b` (lower-cased by `re.IGNORECASE`). -/
def has_none_default (l : List Char) : Bool :=
  scan (fun _ suf =>
    match suf with
    | '=' :: r =>
        let r2 := r.dropWhile is_ws
        "none".data.isPrefixOf r2 && boundary_right (r2.drop 4)
    | _ => false) l

/-- Regex alternate `\bif\s+`: a truthiness check. -/
def has_if_truthiness (l : List Char) : Bool :=
  scan (fun prev suf =>
    boundary_left prev && "if".data.isPrefixOf suf &&
      (match suf.drop 2 with
       | c :: _ => is_ws c
       | [] => false)) l

/-- Regex alternate `\bassert\b`. -/
def has_assert_kw (l : List Char) : Bool :=
  scan (fun prev suf =>
    boundary_left prev && "assert".data.isPrefixOf suf && boundary_right (suf.drop 6)) l

/-- Regex alternate `\braise\b`. -/
def has_raise_kw (l : List Char) : Bool :=
  scan (fun prev suf =>
    boundary_left prev && "raise".data.isPrefixOf suf && boundary_right (suf.drop 5)) l

/-- Regex alternate `\blen\s*\(`. -/
def has_len_call (l : List Char) : Bool :=
  scan (fun prev suf =>
    boundary_left prev && "len".data.isPrefixOf suf && ws_then_lparen (suf.drop 3)) l

/-- The `_CWE259_FP_RE` pattern: does the source line show a
non-hardcoded-credential context?  The alternates appear in the source's
order. -/
def CWE259_FP_RE (source_line : String) : Bool :=
  let l := lower_chars source_line
  has_comparison l || has_call_after ".get" l || has_call_after ".pop" l ||
    has_call_after ".setdefault" l || has_call_after "getenv" l || has_environ l ||
    has_empty_string_default l || has_none_default l || has_if_truthiness l ||
    has_assert_kw l || has_raise_kw l || has_len_call l

/-- The `_RANDOM_BENIGN_CONTEXT` pattern `jitter|retry|backoff|sleep`. -/
def RANDOM_BENIGN_CONTEXT (source_line : String) : Bool :=
  let l := lower_chars source_line
  contains_sub "jitter".data l || contains_sub "retry".data l ||
    contains_sub "backoff".data l || contains_sub "sleep".data l

/-- The `_RANDOM_BENIGN_FILES` pattern `(^|/)demo|seed|test`: by regex
alternation precedence, `demo` is anchored to the start of the path or of a
path segment, while `seed` and `test` match anywhere in the path. -/
def RANDOM_BENIGN_FILES (file_path : String) : Bool :=
  let l := lower_chars file_path
  scan (fun prev suf => (prev = none || prev = some '/') && "demo".data.isPrefixOf suf) l ||
    contains_sub "seed".data l || contains_sub "test".data l

/-- Bandit test ids of the hardcoded-password checks (`_CWE259_CODES`). -/
def CWE259_CODES : List String := ["B105", "B106", "B107"]

/-- `_filter_findings`: drop findings whose code is in the configured skip
list, hardcoded-credential findings whose source line matches
`_CWE259_FP_RE`, and `B311` findings in benign files or benign contexts;
keep everything else in order. -/
def filter_findings (bandit_skip : List String) :
    List SecurityFinding → List SecurityFinding
  | [] => []
  | f :: rest =>
    if f.code ∈ bandit_skip then filter_findings bandit_skip rest
    else if f.code ∈ CWE259_CODES ∧ CWE259_FP_RE f.source_line then
      filter_findings bandit_skip rest
    else if f.code = "B311" ∧
        (RANDOM_BENIGN_FILES f.file_path ∨ RANDOM_BENIGN_CONTEXT f.source_line) then
      filter_findings bandit_skip rest
    else f :: filter_findings bandit_skip rest

/-- Follows the claim's words: the six suppression categories the claim
names for hardcoded-credential findings — a comparison, a dictionary
lookup, an environment-variable read, an empty-string or `None` default,
an assertion, or a length check. -/
def claim_cred_context (source_line : String) : Bool :=
  let l := lower_chars source_line
  has_comparison l || has_call_after ".get" l || has_call_after ".pop" l ||
    has_call_after ".setdefault" l || has_call_after "getenv" l || has_environ l ||
    has_empty_string_default l || has_none_default l || has_assert_kw l || has_len_call l

/-! ## Scoring configuration (src/seraph/config.py)

Only the scoring section is embedded; the defaults are the dataclass field
defaults.  The reporter reads the scale factor under the name
`static_issue_scale_factor`, which is the name carried here. -/

/-- The five dimension weights as a record (the `DIMENSION_WEIGHTS` dict /
`ScoringConfig.dimension_weights`). -/
structure DimWeights where
  mutation : ℚ
  static : ℚ
  baseline : ℚ
  sentinel_risk : ℚ
  co_change : ℚ
deriving DecidableEq, Repr

/-- The reporter's module-level default weights. -/
def DIMENSION_WEIGHTS : DimWeights :=
  { mutation := 0.30, static := 0.20, baseline := 0.15,
    sentinel_risk := 0.20, co_change := 0.15 }

/-- The `ScoringConfig` dataclass with its defaults. -/
structure ScoringConfig where
  mutation_weight : ℚ := 0.30
  static_weight : ℚ := 0.20
  baseline_weight : ℚ := 0.15
  sentinel_risk_weight : ℚ := 0.20
  co_change_weight : ℚ := 0.15
  grade_a : ℚ := 90
  grade_b : ℚ := 75
  grade_c : ℚ := 60
  grade_d : ℚ := 40
  baseline_deduction_per_flaky : ℚ := 10
  risk_deduction_per_pitfall : ℚ := 5
  risk_deduction_per_missing_co_change : ℚ := 3
  risk_hot_file_churn_divisor : ℚ := 5
  risk_hot_file_max_deduction : ℚ := 10
  static_issue_scale_factor : ℚ := 10
  severity_critical : ℚ := 10
  severity_high : ℚ := 5
  severity_medium : ℚ := 2
  severity_low : ℚ := 1
  severity_info : ℚ := 0
deriving DecidableEq

/-- `ScoringConfig.dimension_weights`. -/
def dimension_weights (s : ScoringConfig) : DimWeights :=
  { mutation := s.mutation_weight, static := s.static_weight,
    baseline := s.baseline_weight, sentinel_risk := s.sentinel_risk_weight,
    co_change := s.co_change_weight }

/-- `ScoringConfig.grade_thresholds`. -/
def grade_thresholds (s : ScoringConfig) : ℚ × ℚ × ℚ × ℚ :=
  (s.grade_a, s.grade_b, s.grade_c, s.grade_d)

/-- `_get_severity_weights` applied to one severity: config weights when a
config is given, the module's `SEVERITY_WEIGHTS` otherwise. -/
def severity_weight (scoring : Option ScoringConfig) (sev : Severity) : ℚ :=
  match scoring with
  | some s =>
      match sev with
      | Severity.critical => s.severity_critical
      | Severity.high => s.severity_high
      | Severity.medium => s.severity_medium
      | Severity.low => s.severity_low
      | Severity.info => s.severity_info
  | none =>
      match sev with
      | Severity.critical => 10
      | Severity.high => 5
      | Severity.medium => 2
      | Severity.low => 1
      | Severity.info => 0

/-! ## Score computation (src/seraph/core/reporter.py; the verdict
reporter is the `scoring = none` instance of each function) -/

/-- `compute_baseline_score`. -/
def compute_baseline_score (baseline : BaselineResult)
    (scoring : Option ScoringConfig) : ℚ :=
  let flaky_count := baseline.flaky_tests.length
  if flaky_count = 0 then 100
  else
    let deduction := match scoring with
      | some s => s.baseline_deduction_per_flaky
      | none => 10
    max 0 (100 - flaky_count * deduction)

/-- `compute_mutation_score`. -/
def compute_mutation_score (results : List MutationResult) : ℚ :=
  if results = [] then 100
  else
    let total := results.length
    let killed := results.countP (fun r => r.status = MutantStatus.killed)
    py_round_1 ((killed : ℚ) / (total : ℚ) * 100)

/-- `compute_static_score`. -/
def compute_static_score (findings : List StaticFinding) (file_count : Nat)
    (scoring : Option ScoringConfig) : ℚ :=
  if file_count = 0 then 100
  else
    let weighted_issues := (findings.map (fun f => severity_weight scoring f.severity)).sum
    let issues_per_file := weighted_issues / (file_count : ℚ)
    let scale := match scoring with
      | some s => s.static_issue_scale_factor
      | none => 10
    py_round_1 (max 0 (100 - issues_per_file * scale))

/-- `compute_risk_score`. -/
def compute_risk_score (signals : SentinelSignals)
    (scoring : Option ScoringConfig) : ℚ :=
  if signals.available = false then 100
  else
    let max_ded : ℚ := match scoring with
      | some s => s.risk_hot_file_max_deduction
      | none => 10
    let divisor : ℚ := match scoring with
      | some s => s.risk_hot_file_churn_divisor
      | none => 5
    let pitfall_ded : ℚ := match scoring with
      | some s => s.risk_deduction_per_pitfall
      | none => 5
    let co_ded : ℚ := match scoring with
      | some s => s.risk_deduction_per_missing_co_change
      | none => 3
    let deductions : ℚ :=
      (signals.hot_files.map (fun hf => min max_ded (hf.churn_score / divisor))).sum
        + signals.pitfall_matches.length * pitfall_ded
        + signals.missing_co_changes.length * co_ded
    py_round_1 (max 0 (100 - deductions))

/-- `compute_co_change_score`. -/
def compute_co_change_score (signals : SentinelSignals)
    (changed_files : List String) : ℚ :=
  if signals.available = false then 100
  else
    let missing := signals.missing_co_changes.length
    if missing = 0 ∧ changed_files = [] then 100
    else
      let total_partners := changed_files.length + missing
      if total_partners = 0 then 100
      else py_round_1 ((changed_files.length : ℚ) / (total_partners : ℚ) * 100)

/-! ## CWE tiers (src/seraph/core/security.py) -/

/-- Tier-0 noise CWEs. -/
def CWE_TIER_0 : List String := ["CWE-703", "CWE-390"]

/-- Tier-1 input-validation / XSS / SQLi / log-injection CWEs. -/
def CWE_TIER_1 : List String := ["CWE-20", "CWE-79", "CWE-89", "CWE-117"]

/-- Tier-2 injection / hardcoded-credential / broken-crypto CWEs. -/
def CWE_TIER_2 : List String := ["CWE-78", "CWE-94", "CWE-259", "CWE-798", "CWE-327"]

/-- `cwe_weight`: the tier multiplier of a CWE id. -/
def cwe_weight (cwe_id : String) : ℚ :=
  if cwe_id ∈ CWE_TIER_0 then 0.1
  else if cwe_id ∈ CWE_TIER_1 then 3
  else if cwe_id ∈ CWE_TIER_2 then 2
  else 1

/-- Modelled from the spec: `compute_security_score` is imported by the
seraph engine from its reporter but is absent from the sources; per the
spec it has the same shape as the static score with the CWE-tier
multiplier applied per finding before summing, divided by the file count
and scaled by the configured threshold. -/
def compute_security_score (findings : List SecurityFinding) (file_count : Nat)
    (scoring : Option ScoringConfig) : ℚ :=
  if file_count = 0 then 100
  else
    let weighted := (findings.map
      (fun f => cwe_weight f.cwe_id * severity_weight scoring f.severity)).sum
    let scale := match scoring with
      | some s => s.static_issue_scale_factor
      | none => 10
    py_round_1 (max 0 (100 - weighted / (file_count : ℚ) * scale))

/-! ## Report data model and builder (reporter.py) -/

/-- One dimension of the score vector (`models/assessment.py`). -/
structure DimensionScore where
  name : String
  raw_score : ℚ
  weight : ℚ
  weighted_score : ℚ
  grade : Grade
  details : String
  evaluated : Bool
deriving DecidableEq, Repr

/-- The assembled assessment report (`models/assessment.py`); the
identifier and creation timestamp, generated at construction, are
omitted.  `security_findings` carries the seraph generation's security
stage output and stays empty for verdict reports. -/
structure AssessmentReport where
  repo_path : String
  ref_before : Option String
  ref_after : Option String
  files_changed : List String
  dimensions : List DimensionScore
  overall_score : ℚ
  overall_grade : Grade
  mutation_score : ℚ
  static_issues : Nat
  sentinel_warnings : Nat
  baseline_flaky : Nat
  gaps : List String
  mutations : List MutationResult
  static_findings : List StaticFinding
  security_findings : List SecurityFinding := []
  baseline : Option BaselineResult
  sentinel_signals : SentinelSignals
deriving DecidableEq, Repr

/-- `_score_dimension`: an unevaluated dimension keeps its raw score
unrounded, weighs zero and reads "Not evaluated"; an evaluated one is
rounded to one decimal. -/
def score_dimension (name : String) (raw_score weight : ℚ) (details : String)
    (evaluated : Bool) (thresholds : Option (ℚ × ℚ × ℚ × ℚ)) : DimensionScore :=
  if evaluated = false then
    ⟨name, raw_score, weight, 0, grade_from_score raw_score thresholds,
      "Not evaluated", false⟩
  else
    ⟨name, py_round_1 raw_score, weight, py_round_1 (raw_score * weight),
      grade_from_score raw_score thresholds, details, true⟩

/-- The string of a grade (`Grade.value`). -/
def grade_value : Grade → String
  | Grade.A => "A"
  | Grade.B => "B"
  | Grade.C => "C"
  | Grade.D => "D"
  | Grade.F => "F"

/-- Render a one-decimal nonnegative rational the way Python prints the
corresponding float (used only inside gap strings). -/
def one_decimal_repr (q : ℚ) : String :=
  let m := rat_floor (10 * q)
  if m < 0 then "-" ++ toString ((-m) / 10) ++ "." ++ toString ((-m) % 10)
  else toString (m / 10) ++ "." ++ toString (m % 10)

/-- `_identify_gaps`: evaluated dimensions graded C, D or F, rendered. -/
def identify_gaps (dimensions : List DimensionScore) : List String :=
  dimensions.filterMap fun d =>
    if d.evaluated = false then none
    else if d.grade = Grade.C ∨ d.grade = Grade.D ∨ d.grade = Grade.F then
      some (d.name ++ ": " ++ grade_value d.grade ++ " (" ++
        one_decimal_repr d.raw_score ++ "%) — " ++ d.details)
    else none

/-- `_mutation_details` (seraph wording). -/
def mutation_details (mutations : List MutationResult) : String :=
  if mutations = [] then "No mutations (skipped or no mutable code)"
  else
    let total := mutations.length
    let killed := mutations.countP (fun m => m.status = MutantStatus.killed)
    toString killed ++ "/" ++ toString total ++ " killed, " ++
      toString (total - killed) ++ " survived"

/-- `_static_details`: per-analyzer counts, sorted by analyzer name. -/
def static_details (findings : List StaticFinding) : String :=
  if findings = [] then "No issues found"
  else
    let keys := List.insertionSort str_le ((findings.map (·.analyzer)).dedup)
    let parts := keys.map fun k =>
      toString (findings.countP (fun f => f.analyzer = k)) ++ " " ++ k
    String.intercalate ", " parts

/-- `_baseline_details`. -/
def baseline_details (baseline : Option BaselineResult) : String :=
  match baseline with
  | none => "Baseline not run"
  | some b =>
    let flaky := b.flaky_tests.length
    if flaky = 0 then "All stable across " ++ toString b.run_count ++ " runs"
    else toString flaky ++ " flaky test(s) detected across " ++
      toString b.run_count ++ " runs"

/-- `_sentinel_details`. -/
def sentinel_details (signals : SentinelSignals) : String :=
  if signals.available = false then "Sentinel data not available"
  else
    let parts :=
      (if signals.pitfall_matches ≠ [] then
        [toString signals.pitfall_matches.length ++ " pitfall match(es)"] else [])
      ++ (if signals.hot_files ≠ [] then
        [toString signals.hot_files.length ++ " hot file(s)"] else [])
    if parts = [] then "No risk signals"
    else String.intercalate ", " parts

/-- `_cochange_details`. -/
def cochange_details (signals : SentinelSignals) : String :=
  if signals.available = false then "Sentinel data not available"
  else
    let missing := signals.missing_co_changes
    if missing = [] then "All co-change partners included"
    else
      let files := (missing.take 3).map (·.partner_file)
      let suffix := if 3 < missing.length then
        " (+" ++ toString (missing.length - 3) ++ " more)" else ""
      "Missing: " ++ String.intercalate ", " files ++ suffix

/-- Modelled from the spec: `_security_details` belongs to the
security-extended seraph reporter absent from the sources. -/
def security_details (findings : List SecurityFinding) : String :=
  if findings = [] then "No security issues"
  else toString findings.length ++ " security finding(s)"

/-- The five dimension keys (`all_dims` in `build_report`). -/
def ALL_DIMS : List String :=
  ["mutation", "static", "baseline", "sentinel_risk", "co_change"]

/-- The re-weighted fusion of the evaluated dimensions (the overall-score
block of `build_report`), before the final one-decimal rounding. -/
def overall_raw_of (dimensions : List DimensionScore) : ℚ :=
  let evaluated_dims := dimensions.filter (·.evaluated)
  if evaluated_dims ≠ [] then
    let total_weight := (evaluated_dims.map (·.weight)).sum
    if 0 < total_weight then
      (evaluated_dims.map (fun d => d.raw_score * (d.weight / total_weight))).sum
    else 100
  else 100

/-- `build_report` (the five-dimension builder of `reporter.py`, common to
both generations; verdict is the `scoring = none` instance). -/
def build_report (repo_path : String) (ref_before ref_after : Option String)
    (files_changed : List String)
    (mutation_score static_score baseline_score sentinel_risk_score co_change_score : ℚ)
    (mutations : List MutationResult) (static_findings : List StaticFinding)
    (baseline : Option BaselineResult) (sentinel_signals : SentinelSignals)
    (evaluated_dimensions : Option (List String) := none)
    (scoring : Option ScoringConfig := none) : AssessmentReport :=
  let evaluated := evaluated_dimensions.getD ALL_DIMS
  let weights := match scoring with
    | some s => dimension_weights s
    | none => DIMENSION_WEIGHTS
  let thresholds := match scoring with
    | some s => some (grade_thresholds s)
    | none => none
  let dimensions := [
    score_dimension "Mutation Score" mutation_score weights.mutation
      (mutation_details mutations) (decide ("mutation" ∈ evaluated)) thresholds,
    score_dimension "Static Cleanliness" static_score weights.static
      (static_details static_findings) (decide ("static" ∈ evaluated)) thresholds,
    score_dimension "Test Baseline" baseline_score weights.baseline
      (baseline_details baseline) (decide ("baseline" ∈ evaluated)) thresholds,
    score_dimension "Sentinel Risk" sentinel_risk_score weights.sentinel_risk
      (sentinel_details sentinel_signals) (decide ("sentinel_risk" ∈ evaluated)) thresholds,
    score_dimension "Co-change Coverage" co_change_score weights.co_change
      (cochange_details sentinel_signals) (decide ("co_change" ∈ evaluated)) thresholds ]
  let overall_raw := overall_raw_of dimensions
  { repo_path := repo_path, ref_before := ref_before, ref_after := ref_after,
    files_changed := files_changed, dimensions := dimensions,
    overall_score := py_round_1 overall_raw,
    overall_grade := grade_from_score overall_raw thresholds,
    mutation_score := mutation_score,
    static_issues := static_findings.length,
    sentinel_warnings :=
      sentinel_signals.pitfall_matches.length + sentinel_signals.hot_files.length,
    baseline_flaky := match baseline with
      | some b => b.flaky_tests.length
      | none => 0,
    gaps := identify_gaps dimensions,
    mutations := mutations, static_findings := static_findings,
    baseline := baseline, sentinel_signals := sentinel_signals }

/-! ## Security-extended report builder and seraph engine

`src/seraph/core/engine.py` calls a `build_report` that also accepts a
security score, security findings and a `"security"` evaluated key; that
reporter generation is absent from the sources and is modelled from the
spec here (`build_report6`).  The engine's own control flow is embedded
from `engine.py` itself. -/

/-- Modelled from the spec: the security dimension's configured weight
share (the spec leaves the exact share to configuration; its value is not
load-bearing for any claim). -/
def SECURITY_WEIGHT : ℚ := 0.15

/-- Modelled from the spec: the six dimension keys of the
security-extended reporter. -/
def ALL_DIMS6 : List String :=
  ["mutation", "static", "baseline", "sentinel_risk", "co_change", "security"]

/-- Modelled from the spec: the security-extended `build_report` the
seraph engine calls (absent from the sources).  It mirrors the
five-dimension `build_report` with a Security dimension appended in the
spec's canonical order and the same re-weighted fusion over the evaluated
subset. -/
def build_report6 (repo_path : String) (ref_before ref_after : Option String)
    (files_changed : List String)
    (mutation_score static_score baseline_score sentinel_risk_score
      co_change_score security_score : ℚ)
    (mutations : List MutationResult) (static_findings : List StaticFinding)
    (security_findings : List SecurityFinding)
    (baseline : Option BaselineResult) (sentinel_signals : SentinelSignals)
    (evaluated_dimensions : Option (List String) := none)
    (scoring : Option ScoringConfig := none) : AssessmentReport :=
  let evaluated := evaluated_dimensions.getD ALL_DIMS6
  let weights := match scoring with
    | some s => dimension_weights s
    | none => DIMENSION_WEIGHTS
  let thresholds := match scoring with
    | some s => some (grade_thresholds s)
    | none => none
  let dimensions := [
    score_dimension "Mutation Score" mutation_score weights.mutation
      (mutation_details mutations) (decide ("mutation" ∈ evaluated)) thresholds,
    score_dimension "Static Cleanliness" static_score weights.static
      (static_details static_findings) (decide ("static" ∈ evaluated)) thresholds,
    score_dimension "Test Baseline" baseline_score weights.baseline
      (baseline_details baseline) (decide ("baseline" ∈ evaluated)) thresholds,
    score_dimension "Sentinel Risk" sentinel_risk_score weights.sentinel_risk
      (sentinel_details sentinel_signals) (decide ("sentinel_risk" ∈ evaluated)) thresholds,
    score_dimension "Co-change Coverage" co_change_score weights.co_change
      (cochange_details sentinel_signals) (decide ("co_change" ∈ evaluated)) thresholds,
    score_dimension "Security" security_score SECURITY_WEIGHT
      (security_details security_findings) (decide ("security" ∈ evaluated)) thresholds ]
  let overall_raw := overall_raw_of dimensions
  { repo_path := repo_path, ref_before := ref_before, ref_after := ref_after,
    files_changed := files_changed, dimensions := dimensions,
    overall_score := py_round_1 overall_raw,
    overall_grade := grade_from_score overall_raw thresholds,
    mutation_score := mutation_score,
    static_issues := static_findings.length,
    sentinel_warnings :=
      sentinel_signals.pitfall_matches.length + sentinel_signals.hot_files.length,
    baseline_flaky := match baseline with
      | some b => b.flaky_tests.length
      | none => 0,
    gaps := identify_gaps dimensions,
    mutations := mutations, static_findings := static_findings,
    security_findings := security_findings,
    baseline := baseline, sentinel_signals := sentinel_signals }

/-- `run_mutations` output (`MutationRunResult` in `seraph/core/mutator.py`). -/
structure MutationRunResult where
  results : List MutationResult
  tool_available : Bool
deriving DecidableEq, Repr

/-- `run_static_analysis` output (`StaticRunResult` in `seraph/core/static.py`);
`tool_config` is the analyzer-name → configured dict. -/
structure StaticRunResult where
  findings : List StaticFinding
  tool_config : List (String × Bool)
deriving DecidableEq, Repr

/-- Python's `tool_config.get(name, True)`. -/
def tool_config_get (cfg : List (String × Bool)) (name : String) : Bool :=
  match cfg.find? (fun p => p.1 = name) with
  | some p => p.2
  | none => true

/-- `run_security_analysis` output (`SecurityRunResult` in
`seraph/core/security.py`). -/
structure SecurityRunResult where
  findings : List SecurityFinding
  tools_available : List (String × Bool)
deriving DecidableEq, Repr

/-- One run's external-stage outcomes, feeding `SeraphEngine.assess`: the
diff's file list in diff order, the skip flags, and each fallible stage's
result (`Except.error` embeds the stage raising). -/
structure EngineEnv where
  files : List String
  skip_baseline : Bool := false
  skip_mutations : Bool := false
  baseline_res : Except Unit BaselineResult
  mutation_res : Except Unit MutationRunResult
  static_res : Except Unit StaticRunResult
  security_res : Except Unit SecurityRunResult
  sentinel_res : Except Unit SentinelSignals
  scoring : ScoringConfig := {}

/-- `diff.python_files`: the changed paths ending in `.py`, in diff order. -/
def py_files (env : EngineEnv) : List String := env.files.filter ends_with_py

/-- Step 2 of `assess`: the baseline error boundary.  Yields the optional
result, the baseline score, and whether `"baseline"` joined the evaluated
set. -/
structure BaselineStage where
  result : Option BaselineResult
  score : ℚ
  evaluated : Bool

/-- The try/except body of step 2: the stage result when it runs. -/
def baseline_stage_of (sc : ScoringConfig) :
    Except Unit BaselineResult → BaselineStage
  | Except.ok b => ⟨some b, compute_baseline_score b (some sc), true⟩
  | Except.error _ => ⟨none, 100, false⟩

/-- Step 2 of `SeraphEngine.assess`. -/
def baseline_stage (env : EngineEnv) : BaselineStage :=
  if env.skip_baseline = false ∧ py_files env ≠ [] then
    baseline_stage_of env.scoring env.baseline_res
  else ⟨none, 100, false⟩

/-- Step 3 outcome: mutations, score, evaluated flag, tool availability. -/
structure MutationStage where
  mutations : List MutationResult
  score : ℚ
  evaluated : Bool
  tool_available : Bool

/-- The try/except body of step 3: the stage result when it runs. -/
def mutation_stage_of : Except Unit MutationRunResult → MutationStage
  | Except.ok mr =>
      if mr.results ≠ [] then
        ⟨mr.results, compute_mutation_score mr.results, true, mr.tool_available⟩
      else ⟨mr.results, 100, false, mr.tool_available⟩
  | Except.error _ => ⟨[], 100, false, false⟩

/-- Step 3 of `SeraphEngine.assess`: only a nonempty result list marks the
mutation dimension evaluated. -/
def mutation_stage (env : EngineEnv) : MutationStage :=
  if env.skip_mutations = false ∧ py_files env ≠ [] then
    mutation_stage_of env.mutation_res
  else ⟨[], 100, false, false⟩

/-- Step 4 outcome: the static run (findings and tool config) and score. -/
structure StaticStage where
  run : StaticRunResult
  score : ℚ

/-- The try/except body of step 4: the stage result when it runs. -/
def static_stage_of (file_count : Nat) (sc : ScoringConfig) :
    Except Unit StaticRunResult → StaticStage
  | Except.ok sr =>
      let scoreable := sr.findings.filter
        (fun f => tool_config_get sr.tool_config f.analyzer)
      ⟨sr, compute_static_score scoreable file_count (some sc)⟩
  | Except.error _ => ⟨⟨[], []⟩, 100⟩

/-- Step 4 of `SeraphEngine.assess`: scores only findings from configured
tools; the error boundary keeps the defaults (no findings, score 100). -/
def static_stage (env : EngineEnv) : StaticStage :=
  if py_files env ≠ [] then
    static_stage_of (py_files env).length env.scoring env.static_res
  else ⟨⟨[], []⟩, 100⟩

/-- Step 4.5 outcome: security findings, score and evaluated flag. -/
structure SecurityStage where
  findings : List SecurityFinding
  score : ℚ
  evaluated : Bool

/-- The try/except body of step 4.5: the stage result when it runs. -/
def security_stage_of (file_count : Nat) (sc : ScoringConfig) :
    Except Unit SecurityRunResult → SecurityStage
  | Except.ok res =>
      if res.findings ≠ [] ∨ res.tools_available.any (fun p => p.2) then
        ⟨res.findings,
          compute_security_score res.findings file_count (some sc), true⟩
      else ⟨res.findings, 100, false⟩
  | Except.error _ => ⟨[], 100, false⟩

/-- Step 4.5 of `SeraphEngine.assess`: evaluated when the stage ran and
either produced findings or had some scanner available. -/
def security_stage (env : EngineEnv) : SecurityStage :=
  if py_files env ≠ [] then
    security_stage_of (py_files env).length env.scoring env.security_res
  else ⟨[], 100, false⟩

/-- Step 5 of `SeraphEngine.assess`: the sentinel error boundary, default
signals (unavailable) on failure. -/
def sentinel_stage (env : EngineEnv) : SentinelSignals :=
  match env.sentinel_res with
  | Except.ok s => s
  | Except.error _ => {}

/-- `SeraphEngine._empty_report`: the perfect-score report for an empty
diff (all dimensions evaluated, all raw scores 100). -/
def seraph_empty_report (repo_path : String) (ref_before ref_after : Option String)
    (scoring : ScoringConfig) : AssessmentReport :=
  build_report6 repo_path ref_before ref_after [] 100 100 100 100 100 100
    [] [] [] none {} none (some scoring)

/-- The evaluated-dimension set `assess` accumulates: static,
sentinel-risk and co-change are preset; baseline, mutation and security
join when their stages mark themselves evaluated. -/
def seraph_evaluated (env : EngineEnv) : List String :=
  ["static", "sentinel_risk", "co_change"]
    ++ (if (baseline_stage env).evaluated then ["baseline"] else [])
    ++ (if (mutation_stage env).evaluated then ["mutation"] else [])
    ++ (if (security_stage env).evaluated then ["security"] else [])

/-- The report `assess` builds on a nonempty diff (step 6). -/
def seraph_report (repo_path : String) (ref_before ref_after : Option String)
    (env : EngineEnv) : AssessmentReport :=
  build_report6 repo_path ref_before ref_after env.files
    (mutation_stage env).score (static_stage env).score (baseline_stage env).score
    (compute_risk_score (sentinel_stage env) (some env.scoring))
    (compute_co_change_score (sentinel_stage env) env.files)
    (security_stage env).score
    (mutation_stage env).mutations (static_stage env).run.findings
    (security_stage env).findings (baseline_stage env).result (sentinel_stage env)
    (some (seraph_evaluated env)) (some env.scoring)

/-- `SeraphEngine.assess`: the seven-step pipeline over one run's stage
outcomes.  Returns the report and the list of reports persisted by
`save_assessment` (the engine saves exactly once on every path). -/
def seraph_assess (repo_path : String) (ref_before ref_after : Option String)
    (env : EngineEnv) : AssessmentReport × List AssessmentReport :=
  if env.files = [] then
    (seraph_empty_report repo_path ref_before ref_after env.scoring,
      [seraph_empty_report repo_path ref_before ref_after env.scoring])
  else
    (seraph_report repo_path ref_before ref_after env,
      [seraph_report repo_path ref_before ref_after env])

/-! ## Verdict engine (src/verdict/core/engine.py)

The verdict engine has no per-stage error boundaries (a stage exception
propagates), so a completed run is embedded with each stage's successful
value. -/

/-- One completed run's stage outcomes for `VerdictEngine.assess`. -/
structure VerdictEnv where
  files : List String
  skip_baseline : Bool := false
  skip_mutations : Bool := false
  baseline_res : BaselineResult
  mutation_res : List MutationResult
  static_res : List StaticFinding
  signals : SentinelSignals

/-- The verdict diff's `.py` files. -/
def verdict_py_files (env : VerdictEnv) : List String := env.files.filter ends_with_py

/-- `VerdictEngine._empty_report`: built, but — unlike seraph — not
persisted by the caller. -/
def verdict_empty_report (repo_path : String)
    (ref_before ref_after : Option String) : AssessmentReport :=
  build_report repo_path ref_before ref_after [] 100 100 100 100 100 [] [] none {}

/-- `VerdictEngine.assess`: on an empty diff it returns `_empty_report`
without saving; otherwise it runs the stages and persists the report
once. -/
def verdict_assess (repo_path : String) (ref_before ref_after : Option String)
    (env : VerdictEnv) : AssessmentReport × List AssessmentReport :=
  if env.files = [] then
    (verdict_empty_report repo_path ref_before ref_after, [])
  else
    let run_base := env.skip_baseline = false ∧ verdict_py_files env ≠ []
    let baseline := if run_base then some env.baseline_res else none
    let baseline_score : ℚ := if run_base then
        (if env.baseline_res.flaky_tests.length = 0 then 100
         else max 0 (100 - env.baseline_res.flaky_tests.length * (10 : ℚ)))
      else 100
    let run_mut := env.skip_mutations = false ∧ verdict_py_files env ≠ []
    let mutations := if run_mut then env.mutation_res else []
    let mutation_score := if run_mut then compute_mutation_score env.mutation_res else 100
    let static_score := compute_static_score env.static_res
      (max (verdict_py_files env).length 1) none
    let sentinel_risk_score := compute_risk_score env.signals none
    let co_change_score := compute_co_change_score env.signals env.files
    let report := build_report repo_path ref_before ref_after env.files
      mutation_score static_score baseline_score sentinel_risk_score co_change_score
      mutations env.static_res baseline env.signals
    (report, [report])

/-! ## Theorems -/

/-- C5: for every baseline run, a test identifier appears in
`flaky_tests` iff its failure count `f` across the `N` collected runs
satisfies `0 < f < N`; in particular a test failing in every run is not
flaky. -/
theorem flaky_iff_fail_count_strictly_between (rp tc : String)
    (all_failures : List (List String)) (t : String) :
    t ∈ (run_baseline_core rp tc all_failures).flaky_tests ↔
      0 < fail_count all_failures t ∧
        fail_count all_failures t < all_failures.length := by
  show t ∈ (List.insertionSort str_le (all_test_ids all_failures)).filter _ ↔ _
  rw [List.mem_filter]
  simp only [Bool.and_eq_true, decide_eq_true_eq]
  constructor
  · rintro ⟨-, h1, h2⟩
    exact ⟨h1, h2⟩
  · rintro ⟨h1, h2⟩
    refine ⟨?_, h1, h2⟩
    rw [(List.perm_insertionSort str_le (all_test_ids all_failures)).mem_iff]
    unfold all_test_ids
    rw [List.mem_dedup, List.mem_flatMap]
    obtain ⟨run, hrun, hp⟩ := List.countP_pos_iff.mp h1
    exact ⟨run, hrun, of_decide_eq_true hp⟩

/-- C6: `prune` with no assessment older than the cutoff returns zeroed
counts and leaves every table unchanged; otherwise it deletes exactly the
feedback and mutation-cache rows keyed by the old assessment ids, the
baselines older than the cutoff and the selected assessments, returns the
per-table deletion counts, and afterwards `get_assessment` of any pruned
identifier yields nothing. -/
theorem prune_spec (s : StoreState) (now retention_days : Int) :
    (((s.assessments.filter
        (fun a => a.created_at < now - retention_days)).map (·.id)) = [] →
      prune s now retention_days = (s, ⟨0, 0, 0, 0⟩)) ∧
    (((s.assessments.filter
        (fun a => a.created_at < now - retention_days)).map (·.id)) ≠ [] →
      ((prune s now retention_days).2 =
        ⟨(s.feedback.filter (fun r => r.assessment_id ∈
            (s.assessments.filter
              (fun a => a.created_at < now - retention_days)).map (·.id))).length,
          (s.mutation_cache.filter (fun r => r.assessment_id ∈
            (s.assessments.filter
              (fun a => a.created_at < now - retention_days)).map (·.id))).length,
          (s.baselines.filter
            (fun r => r.created_at < now - retention_days)).length,
          (s.assessments.filter (fun r => r.id ∈
            (s.assessments.filter
              (fun a => a.created_at < now - retention_days)).map (·.id))).length⟩) ∧
      (∀ r, r ∈ (prune s now retention_days).1.feedback ↔
        r ∈ s.feedback ∧ r.assessment_id ∉
          (s.assessments.filter
            (fun a => a.created_at < now - retention_days)).map (·.id)) ∧
      (∀ r, r ∈ (prune s now retention_days).1.mutation_cache ↔
        r ∈ s.mutation_cache ∧ r.assessment_id ∉
          (s.assessments.filter
            (fun a => a.created_at < now - retention_days)).map (·.id)) ∧
      (∀ r, r ∈ (prune s now retention_days).1.baselines ↔
        r ∈ s.baselines ∧ ¬ r.created_at < now - retention_days) ∧
      (∀ r, r ∈ (prune s now retention_days).1.assessments ↔
        r ∈ s.assessments ∧ r.id ∉
          (s.assessments.filter
            (fun a => a.created_at < now - retention_days)).map (·.id))) ∧
    (∀ a ∈ s.assessments, a.created_at < now - retention_days →
      get_assessment (prune s now retention_days).1 a.id = none) := by
  by_cases hold : ((s.assessments.filter
      (fun a => a.created_at < now - retention_days)).map (·.id)) = []
  · refine ⟨fun _ => ?_, fun hne => absurd hold hne, fun a ha hc => ?_⟩
    · unfold prune
      rw [if_pos hold]
    · exfalso
      have : a.id ∈ (s.assessments.filter
          (fun a => a.created_at < now - retention_days)).map (·.id) := by
        exact List.mem_map_of_mem _ (List.mem_filter.mpr ⟨ha, by simpa using hc⟩)
      rw [hold] at this
      exact absurd this (List.not_mem_nil _)
  · have hpr : prune s now retention_days =
        ({ assessments := s.assessments.filter (fun r => r.id ∉
            (s.assessments.filter
              (fun a => a.created_at < now - retention_days)).map (·.id)),
           baselines := s.baselines.filter
            (fun r => ¬ r.created_at < now - retention_days),
           mutation_cache := s.mutation_cache.filter (fun r => r.assessment_id ∉
            (s.assessments.filter
              (fun a => a.created_at < now - retention_days)).map (·.id)),
           feedback := s.feedback.filter (fun r => r.assessment_id ∉
            (s.assessments.filter
              (fun a => a.created_at < now - retention_days)).map (·.id)) },
         ⟨(s.feedback.countP (fun r => r.assessment_id ∈
            (s.assessments.filter
              (fun a => a.created_at < now - retention_days)).map (·.id))),
          (s.mutation_cache.countP (fun r => r.assessment_id ∈
            (s.assessments.filter
              (fun a => a.created_at < now - retention_days)).map (·.id))),
          (s.baselines.countP (fun r => r.created_at < now - retention_days)),
          (s.assessments.countP (fun r => r.id ∈
            (s.assessments.filter
              (fun a => a.created_at < now - retention_days)).map (·.id)))⟩) := by
      unfold prune
      rw [if_neg hold]
    refine ⟨fun h => absurd h hold, fun _ => ?_, fun a ha hc => ?_⟩
    · rw [hpr]
      refine ⟨?_, fun r => ?_, fun r => ?_, fun r => ?_, fun r => ?_⟩
      · simp [List.countP_eq_length_filter]
      · simp [List.mem_filter]
      · simp [List.mem_filter]
      · simp [List.mem_filter]
      · simp [List.mem_filter]
    · rw [hpr]
      unfold get_assessment
      rw [List.find?_eq_none]
      intro x hx
      rw [List.mem_filter] at hx
      have haid : a.id ∈ (s.assessments.filter
          (fun a => a.created_at < now - retention_days)).map (·.id) :=
        List.mem_map_of_mem _ (List.mem_filter.mpr ⟨ha, by simpa using hc⟩)
      have hxid : x.id ∉ (s.assessments.filter
          (fun a => a.created_at < now - retention_days)).map (·.id) := by
        simpa using hx.2
      simp only [decide_eq_true_eq]
      intro heq
      rw [heq] at hxid
      exact hxid haid

/-- The concrete store of the spec's retention scenario: one 200-day-old
assessment with one feedback row and one mutation row, and one younger
baseline. -/
def prune_witness_store : StoreState :=
  { assessments := [⟨"a1", "repo", "B", 0⟩],
    baselines := [⟨"b1", "repo", 150⟩],
    mutation_cache := [⟨"m1", "a1", 0⟩],
    feedback := [⟨"f1", "a1", 0⟩] }

/-- Witness for the prune theorem at the spec's retention scenario:
deletion counts `{feedback 1, mutation_cache 1, baselines 0,
assessments 1}` and the pruned identifier no longer resolves. -/
theorem prune_spec_witness :
    (prune prune_witness_store 200 90).2 = ⟨1, 1, 0, 1⟩ ∧
    get_assessment (prune prune_witness_store 200 90).1 "a1" = none := by
  have h := prune_spec prune_witness_store 200 90
  refine ⟨?_, ?_⟩
  · rw [(h.2.1 (by decide)).1]
    decide
  · exact h.2.2 ⟨"a1", "repo", "B", 0⟩ (by decide) (by decide)

/-- Invariant of the `_get_missing_co_changes` collection loop: every
collected partner avoids both the changed set and the already-seen set,
and the collected partners are pairwise distinct. -/
theorem collect_missing_invariant (l : List (String × CoChangeRec))
    (chg : List String) : ∀ seen : List String,
    (∀ m ∈ collect_missing chg l seen,
      m.partner_file ∉ chg ∧ m.partner_file ∉ seen) ∧
    ((collect_missing chg l seen).map (·.partner_file)).Nodup := by
  induction l with
  | nil =>
    intro seen
    constructor
    · intro m hm
      simp [collect_missing] at hm
    · simp [collect_missing]
  | cons hd tl ih =>
    intro seen
    obtain ⟨f, cc⟩ := hd
    by_cases h : co_change_partner f cc ∈ chg ∨ co_change_partner f cc ∈ seen
    · rw [show collect_missing chg ((f, cc) :: tl) seen
          = collect_missing chg tl seen by
        simp only [collect_missing]
        rw [if_pos h]]
      exact ih seen
    · push_neg at h
      rw [show collect_missing chg ((f, cc) :: tl) seen
          = ⟨f, co_change_partner f cc, cc.change_count⟩ ::
              collect_missing chg tl (co_change_partner f cc :: seen) by
        simp only [collect_missing]
        rw [if_neg (by push_neg; exact h)]]
      have IH := ih (co_change_partner f cc :: seen)
      constructor
      · intro m hm
        rcases List.mem_cons.mp hm with rfl | hm2
        · exact ⟨h.1, h.2⟩
        · have h3 := (IH.1 m hm2)
          exact ⟨h3.1, fun hs => h3.2 (List.mem_cons_of_mem _ hs)⟩
      · rw [List.map_cons]
        refine List.nodup_cons.mpr ⟨?_, IH.2⟩
        intro hmem
        obtain ⟨m, hm, hpm⟩ := List.mem_map.mp hmem
        exact (IH.1 m hm).2 (hpm ▸ List.mem_cons_self _ _)

/-- C7 (amended): the missing co-change list contains each partner path
at most once, contains no path that is in the changed set, and is sorted
by historical change count descending; ties keep first-encounter (diff)
order — the stable sort — rather than lexicographic partner order. -/
theorem missing_co_changes_spec (get_co_changes : String → List CoChangeRec)
    (changed_files : List String) :
    ((get_missing_co_changes get_co_changes changed_files).map (·.partner_file)).Nodup ∧
    (∀ m ∈ get_missing_co_changes get_co_changes changed_files,
      m.partner_file ∉ changed_files) ∧
    List.Sorted count_ge (get_missing_co_changes get_co_changes changed_files) := by
  have hperm := List.perm_insertionSort count_ge
    (collect_missing changed_files
      (changed_files.flatMap
        (fun f => (get_co_changes f).map (fun cc => (f, cc)))) [])
  have hinv := collect_missing_invariant
    (changed_files.flatMap (fun f => (get_co_changes f).map (fun cc => (f, cc))))
    changed_files []
  refine ⟨?_, ?_, ?_⟩
  · exact ((hperm.map (·.partner_file)).nodup_iff).mpr hinv.2
  · intro m hm
    exact (hinv.1 m (hperm.mem_iff.mp hm)).1
  · exact List.sorted_insertionSort count_ge _

/-- Partner ties in diff order for the counterexample oracle: the queried
file has two co-change partners with equal counts, the lexicographically
larger one first. -/
def cex_oracle : String → List CoChangeRec := fun f =>
  if f = "a.py" then [⟨"a.py", "z.py", 5⟩, ⟨"a.py", "b.py", 5⟩] else []

/-- C7 counterexample: at this input the result keeps the tie in
encounter order (`z.py` before `b.py`) although `b.py` precedes `z.py`
lexicographically, so the claimed lexicographic tie-break is false. -/
theorem missing_co_changes_tie_not_lex :
    ((get_missing_co_changes cex_oracle ["a.py"]).map (·.partner_file))
        = ["z.py", "b.py"] ∧
    ((get_missing_co_changes cex_oracle ["a.py"]).map (·.change_count)) = [5, 5] ∧
    chars_le "b.py".data "z.py".data = true ∧ "b.py" ≠ "z.py" := by
  refine ⟨?_, ?_, by decide, by decide⟩ <;> rfl

/-- Witness for the amended co-change theorem at the counterexample
oracle: the properties hold at a concrete input with a nonempty result. -/
theorem missing_co_changes_spec_witness :
    ((get_missing_co_changes cex_oracle ["a.py"]).map (·.partner_file)).Nodup ∧
    (⟨"a.py", "z.py", 5⟩ : MissingCoChange).partner_file ∉ ["a.py"] ∧
    List.Sorted count_ge (get_missing_co_changes cex_oracle ["a.py"]) :=
  ⟨(missing_co_changes_spec cex_oracle ["a.py"]).1,
   (missing_co_changes_spec cex_oracle ["a.py"]).2.1 ⟨"a.py", "z.py", 5⟩ (by decide),
   (missing_co_changes_spec cex_oracle ["a.py"]).2.2⟩

/-- C8 (amended): `_match_pitfalls` decomposes per pitfall — an
association hit yields exactly one `file_path` match and ends that
pitfall's matching, a falsy or invalid pattern yields none, and a
compilable pattern yields one `code_pattern` match per changed file whose
contents match (not only the first). -/
theorem match_pitfalls_per_pitfall (contents : String → Option String)
    (changed_files : List String) (pitfalls : List Pitfall) :
    match_pitfalls contents changed_files pitfalls
      = pitfalls.flatMap (pitfall_matches_one contents changed_files) := by
  induction pitfalls with
  | nil => rfl
  | cons p rest ih =>
    rw [List.flatMap_cons, ← ih]
    rcases hfp : p.file_paths.filter (fun f => f ∈ changed_files) with _ | ⟨f0, fs⟩
    · rcases hcp : p.code_pattern with _ | ⟨_ | m⟩ <;>
        simp [match_pitfalls, pitfall_matches_one, hfp, hcp]
    · simp [match_pitfalls, pitfall_matches_one, hfp]

/-- A pitfall with no file-path association and a pattern matching any
contents (e.g. the regex `.` against nonempty files). -/
def cex_pitfall : Pitfall :=
  ⟨7, "desc", "high", "prevent", [], some (some (fun _ => true))⟩

/-- C8 counterexample: with two changed files whose contents both match
the pitfall's pattern, the pitfall records two matches, so "at most one
match per pitfall" is false. -/
theorem match_pitfalls_two_matches_one_pitfall :
    ((match_pitfalls (fun _ => some "x = eval(y)") ["a.py", "b.py"]
        [cex_pitfall]).map (fun m => (m.pitfall_id, m.matched_file, m.match_type)))
      = [(7, "a.py", "code_pattern"), (7, "b.py", "code_pattern")] := by rfl

/-- Membership in the filtered finding list: a finding survives
`_filter_findings` iff it was present and none of the three suppression
branches applies to it. -/
theorem mem_filter_findings (bandit_skip : List String)
    (findings : List SecurityFinding) (f : SecurityFinding) :
    f ∈ filter_findings bandit_skip findings ↔
      f ∈ findings ∧ f.code ∉ bandit_skip ∧
      ¬(f.code ∈ CWE259_CODES ∧ CWE259_FP_RE f.source_line = true) ∧
      ¬(f.code = "B311" ∧ (RANDOM_BENIGN_FILES f.file_path = true ∨
          RANDOM_BENIGN_CONTEXT f.source_line = true)) := by
  induction findings with
  | nil => simp [filter_findings]
  | cons g rest ih =>
    show f ∈ (if g.code ∈ bandit_skip then filter_findings bandit_skip rest
      else if g.code ∈ CWE259_CODES ∧ CWE259_FP_RE g.source_line then
        filter_findings bandit_skip rest
      else if g.code = "B311" ∧ (RANDOM_BENIGN_FILES g.file_path ∨
          RANDOM_BENIGN_CONTEXT g.source_line) then filter_findings bandit_skip rest
      else g :: filter_findings bandit_skip rest) ↔ _
    split_ifs with h1 h2 h3
    · rw [ih]
      simp only [List.mem_cons]
      constructor
      · rintro ⟨hm, hc⟩
        exact ⟨Or.inr hm, hc⟩
      · rintro ⟨hm | hm, hc⟩
        · subst hm
          exact absurd h1 hc.1
        · exact ⟨hm, hc⟩
    · rw [ih]
      simp only [List.mem_cons]
      constructor
      · rintro ⟨hm, hc⟩
        exact ⟨Or.inr hm, hc⟩
      · rintro ⟨hm | hm, hc⟩
        · subst hm
          exact absurd h2 hc.2.1
        · exact ⟨hm, hc⟩
    · rw [ih]
      simp only [List.mem_cons]
      constructor
      · rintro ⟨hm, hc⟩
        exact ⟨Or.inr hm, hc⟩
      · rintro ⟨hm | hm, hc⟩
        · subst hm
          exact absurd h3 hc.2.2
        · exact ⟨hm, hc⟩
    · simp only [List.mem_cons, ih]
      constructor
      · rintro (rfl | ⟨hm, hc⟩)
        · exact ⟨Or.inl rfl, h1, h2, h3⟩
        · exact ⟨Or.inr hm, hc⟩
      · rintro ⟨hm | hm, hc⟩
        · subst hm
          exact Or.inl rfl
        · exact Or.inr ⟨hm, hc⟩

/-- The source's credential false-positive pattern decomposes as the
claim's six categories plus the two extra alternates the pattern also
carries: the `\bif\s+` truthiness check and the `\braise\b` context. -/
theorem bool_or_shuffle :
    ∀ a b c d e f g h i j k l : Bool,
      (a || b || c || d || e || f || g || h || i || j || k || l)
        = ((a || b || c || d || e || f || g || h || j || l) || i || k) := by decide

theorem cwe259_fp_re_decomp (s : String) :
    CWE259_FP_RE s = (claim_cred_context s || has_if_truthiness (lower_chars s)
      || has_raise_kw (lower_chars s)) := by
  unfold CWE259_FP_RE claim_cred_context
  exact bool_or_shuffle _ _ _ _ _ _ _ _ _ _ _ _

/-- The claim's dropped example: a B105 finding whose source line is a
comparison against the empty string. -/
def drop_example_finding : SecurityFinding :=
  ⟨"app/cfg.py", 3, "B105", "Possible hardcoded password", Severity.low,
    "CWE-259", "if password != \"\":"⟩

/-- The claim's kept example: a B105 finding whose source line is a plain
hardcoded assignment. -/
def keep_example_finding : SecurityFinding :=
  ⟨"app/cfg.py", 4, "B105", "Possible hardcoded password", Severity.low,
    "CWE-259", "password = \"hunter2\""⟩

/-- C9 (amended): `_filter_findings` keeps a hardcoded-credential finding
(code B105/B106/B107, not in the skip list) iff its source line shows
none of the claim's six categories, no `if` truthiness check and no
`raise` context; the claim's concrete examples behave as stated. -/
theorem cred_filter_spec :
    (∀ (bandit_skip : List String) (findings : List SecurityFinding)
        (f : SecurityFinding), f.code ∈ CWE259_CODES → f.code ∉ bandit_skip →
      (f ∈ filter_findings bandit_skip findings ↔ f ∈ findings ∧
        claim_cred_context f.source_line = false ∧
        has_if_truthiness (lower_chars f.source_line) = false ∧
        has_raise_kw (lower_chars f.source_line) = false)) ∧
    filter_findings [] [drop_example_finding] = [] ∧
    filter_findings [] [keep_example_finding] = [keep_example_finding] := by
  refine ⟨?_, by decide, by decide⟩
  intro bandit_skip findings f hcode hskip
  rw [mem_filter_findings]
  have hne : f.code ≠ "B311" := by
    have hc2 := hcode
    simp only [CWE259_CODES, List.mem_cons, List.not_mem_nil, or_false] at hc2
    rcases hc2 with h | h | h <;> rw [h] <;> decide
  rw [cwe259_fp_re_decomp]
  constructor
  · rintro ⟨hm, -, hre, -⟩
    refine ⟨hm, ?_⟩
    have : ¬((claim_cred_context f.source_line ||
        has_if_truthiness (lower_chars f.source_line) ||
        has_raise_kw (lower_chars f.source_line)) = true) := fun hb => hre ⟨hcode, hb⟩
    simp only [Bool.or_eq_true, not_or, Bool.not_eq_true] at this
    exact ⟨this.1.1, this.1.2, this.2⟩
  · rintro ⟨hm, hc1, hc2, hc3⟩
    refine ⟨hm, hskip, ?_, ?_⟩
    · rintro ⟨-, hb⟩
      simp only [Bool.or_eq_true] at hb
      rcases hb with (hb | hb) | hb
      · rw [hc1] at hb; exact Bool.false_ne_true hb
      · rw [hc2] at hb; exact Bool.false_ne_true hb
      · rw [hc3] at hb; exact Bool.false_ne_true hb
    · rintro ⟨hb, -⟩
      exact hne hb

/-- A B105 finding whose source line raises with the value: none of the
claim's six suppression categories applies to it. -/
def raise_example_finding : SecurityFinding :=
  ⟨"app/auth.py", 10, "B105", "Possible hardcoded password", Severity.low,
    "CWE-259", "raise ValueError(password)"⟩

/-- C9 counterexample: this B105 finding's source line shows none of the
claim's six categories, yet `_filter_findings` (empty skip list) drops it
— through the pattern's `\braise\b` alternate — so "keeps
hardcoded-credential findings whose source line has none of these" is
false at this input. -/
theorem cred_filter_drops_raise_line :
    raise_example_finding.code ∈ CWE259_CODES ∧
    claim_cred_context raise_example_finding.source_line = false ∧
    filter_findings [] [raise_example_finding] = [] := by
  refine ⟨by decide, by decide, by decide⟩

/-- Witness for the amended credential-filter theorem at the claim's two
concrete findings: the comparison line is dropped and the plain
assignment is kept. -/
theorem cred_filter_spec_witness :
    (keep_example_finding ∈ filter_findings [] [keep_example_finding] ↔
      keep_example_finding ∈ [keep_example_finding] ∧
      claim_cred_context keep_example_finding.source_line = false ∧
      has_if_truthiness (lower_chars keep_example_finding.source_line) = false ∧
      has_raise_kw (lower_chars keep_example_finding.source_line) = false) ∧
    filter_findings [] [drop_example_finding] = [] :=
  ⟨cred_filter_spec.1 [] [keep_example_finding] keep_example_finding
      (by decide) (by decide),
   cred_filter_spec.2.1⟩

/-- C10: `_filter_findings` removes every B311 weak-randomness finding
whose file path contains `seed` or `test` anywhere (case-insensitively) —
the `_RANDOM_BENIGN_FILES` pattern's `seed`/`test` alternates are not
anchored to path segments — regardless of the finding's source line and
of the rest of the input list. -/
theorem b311_seed_test_removed (bandit_skip : List String)
    (findings : List SecurityFinding) (f : SecurityFinding)
    (h1 : f.code = "B311")
    (h2 : contains_sub "seed".data (lower_chars f.file_path) = true ∨
          contains_sub "test".data (lower_chars f.file_path) = true) :
    f ∉ filter_findings bandit_skip findings := by
  intro hmem
  rw [mem_filter_findings] at hmem
  have hb : RANDOM_BENIGN_FILES f.file_path = true := by
    unfold RANDOM_BENIGN_FILES
    rcases h2 with h | h <;> simp [h]
  exact hmem.2.2.2 ⟨h1, Or.inl hb⟩

/-- A B311 finding in `src/contest.py` (the substring `test` sits inside
`contest`) with a cryptographic source line. -/
def contest_finding : SecurityFinding :=
  ⟨"src/contest.py", 5, "B311", "pseudo-random generators", Severity.low,
    "CWE-330", "token = random.random()"⟩

/-- A B311 finding in `reseed_util.py` (the substring `seed` sits inside
`reseed`) with a cryptographic source line. -/
def reseed_finding : SecurityFinding :=
  ⟨"reseed_util.py", 9, "B311", "pseudo-random generators", Severity.low,
    "CWE-330", "secret = random.getrandbits(128)"⟩

/-- Witness for the B311 path-filter theorem: the findings in
`src/contest.py` and `reseed_util.py` are silently dropped although
neither sits under a tests directory or in a demo file and neither source
line is benign. -/
theorem b311_seed_test_removed_witness :
    contest_finding ∉ filter_findings [] [contest_finding] ∧
    reseed_finding ∉ filter_findings [] [reseed_finding] :=
  ⟨b311_seed_test_removed [] [contest_finding] contest_finding rfl
      (Or.inr (by decide)),
   b311_seed_test_removed [] [reseed_finding] reseed_finding rfl
      (Or.inl (by decide))⟩

/-- Distributing the shared total weight out of the re-weighted sum. -/
theorem sum_map_weighted_div (E : List DimensionScore) (W : ℚ) :
    (E.map (fun d => d.raw_score * (d.weight / W))).sum
      = (E.map (fun d => d.raw_score * d.weight)).sum / W := by
  induction E with
  | nil => simp
  | cons d rest ih =>
    simp only [List.map_cons, List.sum_cons, ih]
    rw [← mul_div_assoc, div_add_div_same]

/-- The fusion block of `build_report`, characterised the way the claim
states it: with nonnegative weights, the rounded overall score is the
weighted average of the evaluated dimensions' raw scores over their total
weight, or 100 when no dimension is evaluated or the total weight is
zero. -/
theorem overall_raw_of_spec (dims : List DimensionScore)
    (hw : ∀ d ∈ dims, 0 ≤ d.weight) :
    py_round_1 (overall_raw_of dims) =
      (if dims.filter (·.evaluated) ≠ [] ∧
          (((dims.filter (·.evaluated)).map (·.weight)).sum ≠ 0) then
        py_round_1 (((dims.filter (·.evaluated)).map
            (fun d => d.raw_score * d.weight)).sum /
          ((dims.filter (·.evaluated)).map (·.weight)).sum)
      else 100) := by
  have hWnn : 0 ≤ ((dims.filter (·.evaluated)).map (·.weight)).sum := by
    apply List.sum_nonneg
    intro x hx
    obtain ⟨d, hd, rfl⟩ := List.mem_map.mp hx
    exact hw d (List.mem_of_mem_filter hd)
  simp only [overall_raw_of]
  split_ifs with h1 h2 h3 h4 h5
  · rw [sum_map_weighted_div]
  · exact absurd ⟨h1, ne_of_gt h2⟩ h3
  · exact absurd (le_antisymm (not_lt.mp h2) hWnn) h4.2
  · exact py_round_1_hundred
  · exact absurd h5.1 h1
  · exact py_round_1_hundred

/-- C1: for every report built by `build_report` under nonnegative
dimension weights, `overall_score` is the one-decimal rounding of the
weighted average of the evaluated dimensions' raw scores — each raw score
times its weight, divided by the evaluated dimensions' total weight — and
100 when no dimension is evaluated or the evaluated weights sum to
zero. -/
theorem build_report_overall_score (rp : String) (rb ra : Option String)
    (files : List String)
    (ms ss bs rs cs : ℚ) (muts : List MutationResult)
    (sf : List StaticFinding) (bl : Option BaselineResult)
    (sig : SentinelSignals) (ed : Option (List String))
    (sc : Option ScoringConfig)
    (hw : ∀ d ∈ (build_report rp rb ra files ms ss bs rs cs
        muts sf bl sig ed sc).dimensions, 0 ≤ d.weight) :
    (build_report rp rb ra files ms ss bs rs cs muts sf bl sig ed sc).overall_score =
      (if ((build_report rp rb ra files ms ss bs rs cs muts sf bl sig ed sc).dimensions.filter
            (·.evaluated)) ≠ [] ∧
          ((((build_report rp rb ra files ms ss bs rs cs muts sf bl sig ed
              sc).dimensions.filter (·.evaluated)).map (·.weight)).sum ≠ 0) then
        py_round_1
          ((((build_report rp rb ra files ms ss bs rs cs muts sf bl sig ed
              sc).dimensions.filter (·.evaluated)).map
                (fun d => d.raw_score * d.weight)).sum /
            (((build_report rp rb ra files ms ss bs rs cs muts sf bl sig ed
              sc).dimensions.filter (·.evaluated)).map (·.weight)).sum)
      else 100) := by
  have hscore : (build_report rp rb ra files ms ss bs rs cs muts sf bl sig ed
      sc).overall_score = py_round_1 (overall_raw_of
        (build_report rp rb ra files ms ss bs rs cs muts sf bl sig ed
          sc).dimensions) := rfl
  rw [hscore, overall_raw_of_spec _ hw]

/-- Witness for the fusion theorem at a concrete report (default weights,
all five dimensions evaluated, mutation score 50). -/
theorem build_report_overall_score_witness :
    (build_report "repo" none none [] 50 100 100 100 100 [] [] none {}
        none none).overall_score =
      (if ((build_report "repo" none none [] 50 100 100 100 100 [] [] none {}
            none none).dimensions.filter (·.evaluated)) ≠ [] ∧
          ((((build_report "repo" none none [] 50 100 100 100 100 [] [] none {}
              none none).dimensions.filter (·.evaluated)).map (·.weight)).sum ≠ 0) then
        py_round_1
          ((((build_report "repo" none none [] 50 100 100 100 100 [] [] none {}
              none none).dimensions.filter (·.evaluated)).map
                (fun d => d.raw_score * d.weight)).sum /
            (((build_report "repo" none none [] 50 100 100 100 100 [] [] none {}
              none none).dimensions.filter (·.evaluated)).map (·.weight)).sum)
      else 100) := by
  have hw : ∀ d ∈ (build_report "repo" none none [] 50 100 100 100 100 [] []
      none {} none none).dimensions, 0 ≤ d.weight := by
    simp only [build_report, score_dimension, DIMENSION_WEIGHTS, ALL_DIMS,
      Option.getD, List.forall_mem_cons]
    norm_num
  exact build_report_overall_score "repo" none none [] 50 100 100 100 100
    [] [] none {} none none hw

/-- With every raw score 100, the weighted raw-score sum is 100 times the
weight sum. -/
theorem sum_raw_weight_all_100 (dims : List DimensionScore)
    (hr : ∀ d ∈ dims, d.raw_score = 100) :
    (dims.map (fun d => d.raw_score * d.weight)).sum
      = 100 * (dims.map (·.weight)).sum := by
  induction dims with
  | nil => simp
  | cons d rest ih =>
    simp only [List.map_cons, List.sum_cons, mul_add]
    rw [hr d (List.mem_cons_self _ _), ih (fun x hx => hr x (List.mem_cons_of_mem _ hx))]

/-- The fusion yields exactly 100 when every dimension is evaluated with
raw score 100 and the weights sum to something positive. -/
theorem overall_raw_of_all_100 (dims : List DimensionScore)
    (hne : dims ≠ [])
    (he : ∀ d ∈ dims, d.evaluated = true)
    (hr : ∀ d ∈ dims, d.raw_score = 100)
    (hpos : 0 < (dims.map (·.weight)).sum) :
    overall_raw_of dims = 100 := by
  have hfilter : dims.filter (·.evaluated) = dims := List.filter_eq_self.mpr he
  simp only [overall_raw_of, hfilter]
  rw [if_pos hne, if_pos hpos, sum_map_weighted_div, sum_raw_weight_all_100 dims hr,
    mul_div_assoc, div_self (ne_of_gt hpos), mul_one]

/-- The seraph empty-diff report under the default configuration: empty
file list, overall score 100, grade A. -/
theorem seraph_empty_report_facts (rp : String) (rb ra : Option String) :
    (seraph_empty_report rp rb ra {}).files_changed = [] ∧
    (seraph_empty_report rp rb ra {}).overall_score = 100 ∧
    (seraph_empty_report rp rb ra {}).overall_grade = Grade.A := by
  have h100 : overall_raw_of (seraph_empty_report rp rb ra {}).dimensions = 100 := by
    apply overall_raw_of_all_100
    · intro h
      exact List.cons_ne_nil _ _ h
    · intro d hd
      simp only [seraph_empty_report, build_report6, List.mem_cons,
        List.not_mem_nil, or_false] at hd
      rcases hd with rfl | rfl | rfl | rfl | rfl | rfl <;> rfl
    · intro d hd
      simp only [seraph_empty_report, build_report6, List.mem_cons,
        List.not_mem_nil, or_false] at hd
      rcases hd with rfl | rfl | rfl | rfl | rfl | rfl <;>
        exact py_round_1_hundred
    · show (0 : ℚ) < _
      simp only [seraph_empty_report, build_report6, score_dimension,
        dimension_weights, SECURITY_WEIGHT, List.map_cons, List.map_nil,
        List.sum_cons, List.sum_nil, apply_ite DimensionScore.weight, ite_self]
      norm_num
  refine ⟨rfl, ?_, ?_⟩
  · show py_round_1 (overall_raw_of (seraph_empty_report rp rb ra {}).dimensions) = 100
    rw [h100, py_round_1_hundred]
  · show grade_from_score
      (overall_raw_of (seraph_empty_report rp rb ra {}).dimensions) _ = Grade.A
    rw [h100]
    norm_num [grade_from_score, grade_thresholds]

/-- The verdict empty-diff report: empty file list, overall score 100,
grade A. -/
theorem verdict_empty_report_facts (rp : String) (rb ra : Option String) :
    (verdict_empty_report rp rb ra).files_changed = [] ∧
    (verdict_empty_report rp rb ra).overall_score = 100 ∧
    (verdict_empty_report rp rb ra).overall_grade = Grade.A := by
  have h100 : overall_raw_of (verdict_empty_report rp rb ra).dimensions = 100 := by
    apply overall_raw_of_all_100
    · intro h
      exact List.cons_ne_nil _ _ h
    · intro d hd
      simp only [verdict_empty_report, build_report, List.mem_cons,
        List.not_mem_nil, or_false] at hd
      rcases hd with rfl | rfl | rfl | rfl | rfl <;> rfl
    · intro d hd
      simp only [verdict_empty_report, build_report, List.mem_cons,
        List.not_mem_nil, or_false] at hd
      rcases hd with rfl | rfl | rfl | rfl | rfl <;> exact py_round_1_hundred
    · show (0 : ℚ) < _
      simp only [verdict_empty_report, build_report, score_dimension,
        DIMENSION_WEIGHTS, List.map_cons, List.map_nil,
        List.sum_cons, List.sum_nil, apply_ite DimensionScore.weight, ite_self]
      norm_num
  refine ⟨rfl, ?_, ?_⟩
  · show py_round_1 (overall_raw_of (verdict_empty_report rp rb ra).dimensions) = 100
    rw [h100, py_round_1_hundred]
  · show grade_from_score
      (overall_raw_of (verdict_empty_report rp rb ra).dimensions) _ = Grade.A
    rw [h100]
    norm_num [grade_from_score, Option.getD]

/-- C3 (amended): on an empty diff both engines return the perfect-score
report (`files_changed = []`, overall 100, grade A), but only the seraph
engine persists it exactly once; the verdict engine returns it without
saving a row. -/
theorem empty_diff_behavior (rp : String) (rb ra : Option String)
    (envS : EngineEnv) (envV : VerdictEnv)
    (hS : envS.files = []) (hSc : envS.scoring = {}) (hV : envV.files = []) :
    ((seraph_assess rp rb ra envS).1.files_changed = [] ∧
     (seraph_assess rp rb ra envS).1.overall_score = 100 ∧
     (seraph_assess rp rb ra envS).1.overall_grade = Grade.A ∧
     (seraph_assess rp rb ra envS).2 = [(seraph_assess rp rb ra envS).1]) ∧
    ((verdict_assess rp rb ra envV).1.files_changed = [] ∧
     (verdict_assess rp rb ra envV).1.overall_score = 100 ∧
     (verdict_assess rp rb ra envV).1.overall_grade = Grade.A ∧
     (verdict_assess rp rb ra envV).2 = []) := by
  have hseq : seraph_assess rp rb ra envS =
      (seraph_empty_report rp rb ra envS.scoring,
        [seraph_empty_report rp rb ra envS.scoring]) := by
    unfold seraph_assess
    rw [if_pos hS]
  have hveq : verdict_assess rp rb ra envV =
      (verdict_empty_report rp rb ra, []) := by
    unfold verdict_assess
    rw [if_pos hV]
  rw [hseq, hveq, hSc]
  obtain ⟨s1, s2, s3⟩ := seraph_empty_report_facts rp rb ra
  obtain ⟨v1, v2, v3⟩ := verdict_empty_report_facts rp rb ra
  exact ⟨⟨s1, s2, s3, rfl⟩, ⟨v1, v2, v3, rfl⟩⟩

/-- A run of the seraph engine over an empty diff. -/
def cex_seraph_empty_env : EngineEnv :=
  { files := [], baseline_res := Except.error (),
    mutation_res := Except.error (), static_res := Except.error (),
    security_res := Except.error (), sentinel_res := Except.error () }

/-- A run of the verdict engine over an empty diff. -/
def cex_verdict_env : VerdictEnv :=
  { files := [], baseline_res := ⟨"repo", "pytest", 3, [], 1⟩,
    mutation_res := [], static_res := [], signals := {} }

/-- C3 counterexample: the verdict engine's empty-diff path returns the
perfect-score report but persists nothing, so "persists that report
exactly once, so exactly one row appears in the assessments table" is
false at this input. -/
theorem verdict_empty_diff_not_persisted :
    (verdict_assess "repo" none none cex_verdict_env).2 = [] ∧
    (verdict_assess "repo" none none cex_verdict_env).1.files_changed = [] := by
  exact ⟨rfl, rfl⟩

/-- Witness for the empty-diff theorem at a concrete pair of runs. -/
theorem empty_diff_behavior_witness :
    ((seraph_assess "repo" none none cex_seraph_empty_env).1.files_changed = [] ∧
     (seraph_assess "repo" none none cex_seraph_empty_env).1.overall_score = 100 ∧
     (seraph_assess "repo" none none cex_seraph_empty_env).1.overall_grade = Grade.A ∧
     (seraph_assess "repo" none none cex_seraph_empty_env).2 =
       [(seraph_assess "repo" none none cex_seraph_empty_env).1]) ∧
    ((verdict_assess "repo" none none cex_verdict_env).1.files_changed = [] ∧
     (verdict_assess "repo" none none cex_verdict_env).1.overall_score = 100 ∧
     (verdict_assess "repo" none none cex_verdict_env).1.overall_grade = Grade.A ∧
     (verdict_assess "repo" none none cex_verdict_env).2 = []) :=
  empty_diff_behavior "repo" none none cex_seraph_empty_env cex_verdict_env
    rfl rfl rfl

/-! ## Lemmas for the engine's failure isolation and evaluation-set rule -/

theorem score_dimension_false_eq (n : String) (r w : ℚ) (dt : String)
    (th : Option (ℚ × ℚ × ℚ × ℚ)) :
    score_dimension n r w dt false th =
      ⟨n, r, w, 0, grade_from_score r th, "Not evaluated", false⟩ := rfl

theorem score_dimension_true_eq (n : String) (r w : ℚ) (dt : String)
    (th : Option (ℚ × ℚ × ℚ × ℚ)) :
    score_dimension n r w dt true th =
      ⟨n, py_round_1 r, w, py_round_1 (r * w), grade_from_score r th, dt, true⟩ := rfl

theorem score_dimension_evaluated (n : String) (r w : ℚ) (dt : String)
    (b : Bool) (th : Option (ℚ × ℚ × ℚ × ℚ)) :
    (score_dimension n r w dt b th).evaluated = b := by
  cases b <;> rfl

theorem mem_seraph_evaluated_baseline (env : EngineEnv) :
    ("baseline" ∈ seraph_evaluated env) ↔ (baseline_stage env).evaluated = true := by
  unfold seraph_evaluated
  cases (baseline_stage env).evaluated <;>
    cases (mutation_stage env).evaluated <;>
    cases (security_stage env).evaluated <;> decide

theorem mem_seraph_evaluated_mutation (env : EngineEnv) :
    ("mutation" ∈ seraph_evaluated env) ↔ (mutation_stage env).evaluated = true := by
  unfold seraph_evaluated
  cases (baseline_stage env).evaluated <;>
    cases (mutation_stage env).evaluated <;>
    cases (security_stage env).evaluated <;> decide

theorem mem_seraph_evaluated_security (env : EngineEnv) :
    ("security" ∈ seraph_evaluated env) ↔ (security_stage env).evaluated = true := by
  unfold seraph_evaluated
  cases (baseline_stage env).evaluated <;>
    cases (mutation_stage env).evaluated <;>
    cases (security_stage env).evaluated <;> decide

theorem mem_seraph_evaluated_static (env : EngineEnv) :
    ("static" ∈ seraph_evaluated env) := by
  unfold seraph_evaluated
  cases (baseline_stage env).evaluated <;>
    cases (mutation_stage env).evaluated <;>
    cases (security_stage env).evaluated <;> decide

theorem mem_seraph_evaluated_sentinel (env : EngineEnv) :
    ("sentinel_risk" ∈ seraph_evaluated env) := by
  unfold seraph_evaluated
  cases (baseline_stage env).evaluated <;>
    cases (mutation_stage env).evaluated <;>
    cases (security_stage env).evaluated <;> decide

theorem mem_seraph_evaluated_co_change (env : EngineEnv) :
    ("co_change" ∈ seraph_evaluated env) := by
  unfold seraph_evaluated
  cases (baseline_stage env).evaluated <;>
    cases (mutation_stage env).evaluated <;>
    cases (security_stage env).evaluated <;> decide

theorem baseline_stage_error (env : EngineEnv)
    (h1 : env.baseline_res = Except.error ()) (h2 : env.skip_baseline = false)
    (h3 : py_files env ≠ []) : baseline_stage env = ⟨none, 100, false⟩ := by
  unfold baseline_stage
  rw [if_pos ⟨h2, h3⟩, h1]
  rfl

theorem mutation_stage_error (env : EngineEnv)
    (h1 : env.mutation_res = Except.error ()) (h2 : env.skip_mutations = false)
    (h3 : py_files env ≠ []) : mutation_stage env = ⟨[], 100, false, false⟩ := by
  unfold mutation_stage
  rw [if_pos ⟨h2, h3⟩, h1]
  rfl

theorem static_stage_error (env : EngineEnv)
    (h1 : env.static_res = Except.error ()) : (static_stage env).score = 100 := by
  unfold static_stage
  by_cases hpy : py_files env ≠ []
  · rw [if_pos hpy, h1]
    rfl
  · rw [if_neg hpy]

theorem security_stage_error (env : EngineEnv)
    (h1 : env.security_res = Except.error ()) :
    security_stage env = ⟨[], 100, false⟩ := by
  unfold security_stage
  by_cases hpy : py_files env ≠ []
  · rw [if_pos hpy, h1]
    rfl
  · rw [if_neg hpy]

theorem sentinel_stage_error (env : EngineEnv)
    (h1 : env.sentinel_res = Except.error ()) : sentinel_stage env = {} := by
  unfold sentinel_stage
  rw [h1]

theorem mutation_stage_evaluated_iff (env : EngineEnv) :
    (mutation_stage env).evaluated = true ↔
      (env.skip_mutations = false ∧ py_files env ≠ [] ∧
        ∃ mr, env.mutation_res = Except.ok mr ∧ mr.results ≠ []) := by
  unfold mutation_stage
  by_cases hc : env.skip_mutations = false ∧ py_files env ≠ []
  · rw [if_pos hc]
    rcases hres : env.mutation_res with e | mr
    · rw [show mutation_stage_of (Except.error e) = ⟨[], 100, false, false⟩ from rfl]
      constructor
      · intro hfalse
        exact absurd hfalse (by decide)
      · rintro ⟨-, -, mr2, hmr2, -⟩
        exact Except.noConfusion hmr2
    · rw [show mutation_stage_of (Except.ok mr)
          = (if mr.results ≠ [] then
              ⟨mr.results, compute_mutation_score mr.results, true, mr.tool_available⟩
            else ⟨mr.results, 100, false, mr.tool_available⟩) from rfl]
      by_cases hr : mr.results ≠ []
      · rw [if_pos hr]
        constructor
        · intro _
          exact ⟨hc.1, hc.2, mr, rfl, hr⟩
        · intro _
          rfl
      · rw [if_neg hr]
        push_neg at hr
        constructor
        · intro hfalse
          exact Bool.noConfusion hfalse
        · rintro ⟨-, -, mr2, hmr2, hne⟩
          rw [Except.ok.injEq] at hmr2
          exact absurd (hmr2 ▸ hr) hne
  · rw [if_neg hc]
    constructor
    · intro hfalse
      exact absurd hfalse (by decide)
    · rintro ⟨ha, hb, -⟩
      exact absurd ⟨ha, hb⟩ hc

/-- The six dimension entries of the report `assess` builds on a nonempty
diff, by index (spec canonical order: Mutation, Static, Baseline,
Sentinel-risk, Co-change, Security). -/
theorem seraph_report_dim2 (rp : String) (rb ra : Option String)
    (env : EngineEnv) :
    ((seraph_report rp rb ra env).dimensions)[2]? =
      some (score_dimension "Test Baseline" (baseline_stage env).score
        (dimension_weights env.scoring).baseline
        (baseline_details (baseline_stage env).result)
        (decide ("baseline" ∈ seraph_evaluated env))
        (some (grade_thresholds env.scoring))) := rfl

theorem seraph_report_dim0 (rp : String) (rb ra : Option String)
    (env : EngineEnv) :
    ((seraph_report rp rb ra env).dimensions)[0]? =
      some (score_dimension "Mutation Score" (mutation_stage env).score
        (dimension_weights env.scoring).mutation
        (mutation_details (mutation_stage env).mutations)
        (decide ("mutation" ∈ seraph_evaluated env))
        (some (grade_thresholds env.scoring))) := rfl

theorem seraph_report_dim1 (rp : String) (rb ra : Option String)
    (env : EngineEnv) :
    ((seraph_report rp rb ra env).dimensions)[1]? =
      some (score_dimension "Static Cleanliness" (static_stage env).score
        (dimension_weights env.scoring).static
        (static_details (static_stage env).run.findings)
        (decide ("static" ∈ seraph_evaluated env))
        (some (grade_thresholds env.scoring))) := rfl

theorem seraph_report_dim3 (rp : String) (rb ra : Option String)
    (env : EngineEnv) :
    ((seraph_report rp rb ra env).dimensions)[3]? =
      some (score_dimension "Sentinel Risk"
        (compute_risk_score (sentinel_stage env) (some env.scoring))
        (dimension_weights env.scoring).sentinel_risk
        (sentinel_details (sentinel_stage env))
        (decide ("sentinel_risk" ∈ seraph_evaluated env))
        (some (grade_thresholds env.scoring))) := rfl

theorem seraph_report_dim4 (rp : String) (rb ra : Option String)
    (env : EngineEnv) :
    ((seraph_report rp rb ra env).dimensions)[4]? =
      some (score_dimension "Co-change Coverage"
        (compute_co_change_score (sentinel_stage env) env.files)
        (dimension_weights env.scoring).co_change
        (cochange_details (sentinel_stage env))
        (decide ("co_change" ∈ seraph_evaluated env))
        (some (grade_thresholds env.scoring))) := rfl

theorem seraph_report_dim5 (rp : String) (rb ra : Option String)
    (env : EngineEnv) :
    ((seraph_report rp rb ra env).dimensions)[5]? =
      some (score_dimension "Security" (security_stage env).score
        SECURITY_WEIGHT
        (security_details (security_stage env).findings)
        (decide ("security" ∈ seraph_evaluated env))
        (some (grade_thresholds env.scoring))) := rfl

/-- C2 (amended): on a nonempty diff the pipeline always completes and
persists exactly one report, whatever stages raise; a raising baseline,
mutation or security stage leaves its dimension `evaluated = false` with
raw score 100 and details "Not evaluated"; a raising static-analysis or
knowledge stage leaves raw score 100 but the static, sentinel-risk and
co-change dimensions remain `evaluated = true`. -/
theorem stage_failure_isolation (rp : String) (rb ra : Option String)
    (env : EngineEnv) (h : env.files ≠ []) :
    (seraph_assess rp rb ra env).2 = [(seraph_assess rp rb ra env).1] ∧
    (env.baseline_res = Except.error () → env.skip_baseline = false →
      py_files env ≠ [] →
      ∃ d, ((seraph_assess rp rb ra env).1.dimensions)[2]? = some d ∧
        d.evaluated = false ∧ d.raw_score = 100 ∧ d.details = "Not evaluated") ∧
    (env.mutation_res = Except.error () → env.skip_mutations = false →
      py_files env ≠ [] →
      ∃ d, ((seraph_assess rp rb ra env).1.dimensions)[0]? = some d ∧
        d.evaluated = false ∧ d.raw_score = 100 ∧ d.details = "Not evaluated") ∧
    (env.security_res = Except.error () →
      ∃ d, ((seraph_assess rp rb ra env).1.dimensions)[5]? = some d ∧
        d.evaluated = false ∧ d.raw_score = 100 ∧ d.details = "Not evaluated") ∧
    (env.static_res = Except.error () →
      ∃ d, ((seraph_assess rp rb ra env).1.dimensions)[1]? = some d ∧
        d.evaluated = true ∧ d.raw_score = 100) ∧
    (env.sentinel_res = Except.error () →
      (∃ d, ((seraph_assess rp rb ra env).1.dimensions)[3]? = some d ∧
        d.evaluated = true ∧ d.raw_score = 100) ∧
      (∃ d, ((seraph_assess rp rb ra env).1.dimensions)[4]? = some d ∧
        d.evaluated = true ∧ d.raw_score = 100)) := by
  have hassess : seraph_assess rp rb ra env =
      (seraph_report rp rb ra env, [seraph_report rp rb ra env]) := by
    unfold seraph_assess
    rw [if_neg h]
  rw [hassess]
  refine ⟨rfl, ?_, ?_, ?_, ?_, ?_⟩
  · intro h1 h2 h3
    have hbs := baseline_stage_error env h1 h2 h3
    have hflag : decide ("baseline" ∈ seraph_evaluated env) = false := by
      apply decide_eq_false
      rw [mem_seraph_evaluated_baseline, hbs]
      decide
    refine ⟨_, seraph_report_dim2 rp rb ra env, ?_⟩
    rw [hflag, hbs, score_dimension_false_eq]
    exact ⟨rfl, rfl, rfl⟩
  · intro h1 h2 h3
    have hms := mutation_stage_error env h1 h2 h3
    have hflag : decide ("mutation" ∈ seraph_evaluated env) = false := by
      apply decide_eq_false
      rw [mem_seraph_evaluated_mutation, hms]
      decide
    refine ⟨_, seraph_report_dim0 rp rb ra env, ?_⟩
    rw [hflag, hms, score_dimension_false_eq]
    exact ⟨rfl, rfl, rfl⟩
  · intro h1
    have hcs := security_stage_error env h1
    have hflag : decide ("security" ∈ seraph_evaluated env) = false := by
      apply decide_eq_false
      rw [mem_seraph_evaluated_security, hcs]
      decide
    refine ⟨_, seraph_report_dim5 rp rb ra env, ?_⟩
    rw [hflag, hcs, score_dimension_false_eq]
    exact ⟨rfl, rfl, rfl⟩
  · intro h1
    have hss := static_stage_error env h1
    have hflag : decide ("static" ∈ seraph_evaluated env) = true :=
      decide_eq_true (mem_seraph_evaluated_static env)
    refine ⟨_, seraph_report_dim1 rp rb ra env, ?_⟩
    rw [hflag, hss, score_dimension_true_eq]
    exact ⟨rfl, py_round_1_hundred⟩
  · intro h1
    have hsg := sentinel_stage_error env h1
    constructor
    · have hflag : decide ("sentinel_risk" ∈ seraph_evaluated env) = true :=
        decide_eq_true (mem_seraph_evaluated_sentinel env)
      have hscore : compute_risk_score (sentinel_stage env) (some env.scoring) = 100 := by
        rw [hsg]
        rfl
      refine ⟨_, seraph_report_dim3 rp rb ra env, ?_⟩
      rw [hflag, hscore, score_dimension_true_eq]
      exact ⟨rfl, py_round_1_hundred⟩
    · have hflag : decide ("co_change" ∈ seraph_evaluated env) = true :=
        decide_eq_true (mem_seraph_evaluated_co_change env)
      have hscore : compute_co_change_score (sentinel_stage env) env.files = 100 := by
        rw [hsg]
        rfl
      refine ⟨_, seraph_report_dim4 rp rb ra env, ?_⟩
      rw [hflag, hscore, score_dimension_true_eq]
      exact ⟨rfl, py_round_1_hundred⟩

/-- A nonempty-diff run in which the static-analysis stage raises. -/
def cex_env_static_fail : EngineEnv :=
  { files := ["a.py"], skip_baseline := true, skip_mutations := true,
    baseline_res := Except.error (), mutation_res := Except.error (),
    static_res := Except.error (), security_res := Except.error (),
    sentinel_res := Except.error () }

/-- C2 counterexample: when the static-analysis stage raises, the static
dimension (index 1) still carries `evaluated = true` — the engine presets
static in the evaluated set before the stage runs — so "the dimension
corresponding to the failed stage carries evaluated=false" is false at
this input. -/
theorem static_failure_still_evaluated :
    cex_env_static_fail.static_res = Except.error () ∧
    ((seraph_assess "repo" none none cex_env_static_fail).1.dimensions.map
        (·.evaluated)) = [false, true, false, true, true, false] :=
  ⟨rfl, rfl⟩

/-- A nonempty-diff run in which only the baseline stage raises. -/
def wit_env_baseline_fail : EngineEnv :=
  { files := ["a.py"], baseline_res := Except.error (),
    mutation_res := Except.ok ⟨[], true⟩, static_res := Except.ok ⟨[], []⟩,
    security_res := Except.ok ⟨[], [("bandit", true)]⟩,
    sentinel_res := Except.ok {} }

/-- Witness for the failure-isolation theorem: with a raising baseline
stage, exactly one report is persisted and the baseline dimension is not
evaluated, raw 100, "Not evaluated". -/
theorem stage_failure_isolation_witness :
    (seraph_assess "repo" none none wit_env_baseline_fail).2 =
      [(seraph_assess "repo" none none wit_env_baseline_fail).1] ∧
    (∃ d, ((seraph_assess "repo" none none
        wit_env_baseline_fail).1.dimensions)[2]? = some d ∧
      d.evaluated = false ∧ d.raw_score = 100 ∧ d.details = "Not evaluated") := by
  have h := stage_failure_isolation "repo" none none wit_env_baseline_fail (by decide)
  exact ⟨h.1, h.2.1 rfl rfl (by decide)⟩

/-- C4 (amended): on a nonempty diff, the mutation dimension is
`evaluated = true` iff the mutation stage ran (not skipped, some `.py`
file changed) and returned at least one mutation result; the static
dimension, however, is always `evaluated = true`, even when no
source-language file is in the changed-file list. -/
theorem evaluation_set_rule (rp : String) (rb ra : Option String)
    (env : EngineEnv) (h : env.files ≠ []) :
    ((∃ d, ((seraph_assess rp rb ra env).1.dimensions)[0]? = some d ∧
        d.evaluated = true) ↔
      (env.skip_mutations = false ∧ py_files env ≠ [] ∧
        ∃ mr, env.mutation_res = Except.ok mr ∧ mr.results ≠ [])) ∧
    (∃ d, ((seraph_assess rp rb ra env).1.dimensions)[1]? = some d ∧
      d.evaluated = true) := by
  have hassess : seraph_assess rp rb ra env =
      (seraph_report rp rb ra env, [seraph_report rp rb ra env]) := by
    unfold seraph_assess
    rw [if_neg h]
  rw [hassess]
  constructor
  · rw [← mutation_stage_evaluated_iff]
    constructor
    · rintro ⟨d, hd, he⟩
      rw [seraph_report_dim0, Option.some.injEq] at hd
      rw [← hd, score_dimension_evaluated] at he
      exact (mem_seraph_evaluated_mutation env).mp (of_decide_eq_true he)
    · intro hflag
      refine ⟨_, seraph_report_dim0 rp rb ra env, ?_⟩
      rw [score_dimension_evaluated]
      exact decide_eq_true ((mem_seraph_evaluated_mutation env).mpr hflag)
  · refine ⟨_, seraph_report_dim1 rp rb ra env, ?_⟩
    rw [score_dimension_evaluated]
    exact decide_eq_true (mem_seraph_evaluated_static env)

/-- A run whose diff contains only a non-source file. -/
def cex_env_no_py : EngineEnv :=
  { files := ["README.md"],
    baseline_res := Except.ok ⟨"repo", "pytest", 3, [], 1⟩,
    mutation_res := Except.ok ⟨[], true⟩, static_res := Except.ok ⟨[], []⟩,
    security_res := Except.ok ⟨[], [("bandit", true)]⟩,
    sentinel_res := Except.ok {} }

/-- C4 counterexample: with no `.py` file in the diff, the static
dimension (index 1) is still `evaluated = true`, so "the static dimension
has evaluated=true only if at least one source-language (.py) file is in
the changed-file list" is false at this input. -/
theorem static_evaluated_without_python_files :
    py_files cex_env_no_py = [] ∧
    ((seraph_assess "repo" none none cex_env_no_py).1.dimensions.map
        (·.evaluated)) = [false, true, false, true, true, false] :=
  ⟨rfl, rfl⟩

/-- A run in which the mutation stage returns one killed mutant. -/
def wit_env_mutation : EngineEnv :=
  { files := ["a.py"],
    baseline_res := Except.ok ⟨"repo", "pytest", 3, [], 1⟩,
    mutation_res := Except.ok
      ⟨[⟨"a.py", "m1", "aor", none, MutantStatus.killed⟩], true⟩,
    static_res := Except.ok ⟨[], []⟩,
    security_res := Except.ok ⟨[], [("bandit", true)]⟩,
    sentinel_res := Except.ok {} }

/-- Witness for the evaluation-set theorem at a run with one mutation
result: mutation and static dimensions both evaluated. -/
theorem evaluation_set_rule_witness :
    (∃ d, ((seraph_assess "repo" none none
        wit_env_mutation).1.dimensions)[0]? = some d ∧ d.evaluated = true) ∧
    (∃ d, ((seraph_assess "repo" none none
        wit_env_mutation).1.dimensions)[1]? = some d ∧ d.evaluated = true) := by
  have h := evaluation_set_rule "repo" none none wit_env_mutation (by decide)
  exact ⟨h.1.mpr ⟨rfl, by decide, ⟨_, rfl, by decide⟩⟩, h.2⟩

end Seraph
